import Mathlib

/-!
Verification development for the market-decision-engine repository.

The Python sources are shallowly embedded: prices and sizes are modelled as
rationals, numpy/pandas float semantics (NaN and signed infinities, as they
arise in the indicator computations) are modelled by the `PyFloat` type,
Python dicts are modelled as association lists with overwrite-on-insert
semantics, and exceptions are modelled with `Except`.
-/

namespace MDE

/-- Model of a Python/numpy double as used by the indicator engine: either a
finite value (modelled exactly as a rational) or one of the non-finite values
NaN, +inf, -inf.  Negative zero is not distinguished from zero; no computation
in the embedded code distinguishes them. -/
inductive PyFloat where
  | fin (q : ℚ)
  | nan
  | inf
  | ninf
deriving DecidableEq, Repr

namespace PyFloat

/-- Counterpart of `math.isfinite`. -/
def isFinite : PyFloat → Bool
  | .fin _ => true
  | _ => false

/-- IEEE-754 addition restricted to the values the embedding produces. -/
def pyAdd : PyFloat → PyFloat → PyFloat
  | .nan, _ => .nan
  | _, .nan => .nan
  | .inf, .ninf => .nan
  | .ninf, .inf => .nan
  | .inf, _ => .inf
  | _, .inf => .inf
  | .ninf, _ => .ninf
  | _, .ninf => .ninf
  | .fin a, .fin b => .fin (a + b)

/-- IEEE-754 negation. -/
def pyNeg : PyFloat → PyFloat
  | .fin a => .fin (-a)
  | .nan => .nan
  | .inf => .ninf
  | .ninf => .inf

/-- IEEE-754 subtraction, `x - y = x + (-y)`. -/
def pySub (x y : PyFloat) : PyFloat := pyAdd x (pyNeg y)

/-- IEEE-754 multiplication. -/
def pyMul : PyFloat → PyFloat → PyFloat
  | .nan, _ => .nan
  | _, .nan => .nan
  | .fin a, .fin b => .fin (a * b)
  | .fin a, .inf => if 0 < a then .inf else if a < 0 then .ninf else .nan
  | .fin a, .ninf => if 0 < a then .ninf else if a < 0 then .inf else .nan
  | .inf, .fin b => if 0 < b then .inf else if b < 0 then .ninf else .nan
  | .ninf, .fin b => if 0 < b then .ninf else if b < 0 then .inf else .nan
  | .inf, .inf => .inf
  | .inf, .ninf => .ninf
  | .ninf, .inf => .ninf
  | .ninf, .ninf => .inf

/-- IEEE-754/numpy division: a finite value divided by zero gives a signed
infinity (NaN for 0/0), division by an infinity gives zero. -/
def pyDiv : PyFloat → PyFloat → PyFloat
  | .nan, _ => .nan
  | _, .nan => .nan
  | .fin a, .fin b =>
      if b = 0 then (if 0 < a then .inf else if a < 0 then .ninf else .nan)
      else .fin (a / b)
  | .fin _, .inf => .fin 0
  | .fin _, .ninf => .fin 0
  | .inf, .fin b => if b < 0 then .ninf else .inf
  | .ninf, .fin b => if b < 0 then .inf else .ninf
  | _, _ => .nan

/-- Counterpart of `Series.abs`. -/
def pyAbs : PyFloat → PyFloat
  | .fin a => .fin |a|
  | .nan => .nan
  | _ => .inf

/-- Counterpart of `Series.clip(lower=0)`: NaN propagates, values are clamped
from below by 0. -/
def pyClip0 : PyFloat → PyFloat
  | .fin a => .fin (max a 0)
  | .nan => .nan
  | .inf => .inf
  | .ninf => .fin 0

/-- Strict less-than with IEEE semantics: any comparison with NaN is false. -/
def pyLt : PyFloat → PyFloat → Bool
  | .fin a, .fin b => a < b
  | .fin _, .inf => true
  | .ninf, .fin _ => true
  | .ninf, .inf => true
  | _, _ => false

/-- Binary maximum that skips NaN, as `DataFrame.max(axis=1)` (skipna=True)
does when collapsing columns. -/
def pyMaxSkip (x y : PyFloat) : PyFloat :=
  match x, y with
  | .nan, b => b
  | a, .nan => a
  | a, b => if pyLt a b then b else a

/-- Binary minimum that skips NaN, as `DataFrame.min(axis=1)` does. -/
def pyMinSkip (x y : PyFloat) : PyFloat :=
  match x, y with
  | .nan, b => b
  | a, .nan => a
  | a, b => if pyLt b a then b else a

/-- Ternary skipna maximum, for the three true-range candidates. -/
def pyMaxSkip3 (a b c : PyFloat) : PyFloat := pyMaxSkip (pyMaxSkip a b) c

end PyFloat

open PyFloat

instance {ε α : Type} [DecidableEq ε] [DecidableEq α] : DecidableEq (Except ε α) := fun a b =>
  match a, b with
  | .ok x, .ok y => if h : x = y then .isTrue (by rw [h]) else .isFalse (by simp [h])
  | .error x, .error y => if h : x = y then .isTrue (by rw [h]) else .isFalse (by simp [h])
  | .ok _, .error _ => .isFalse (by simp)
  | .error _, .ok _ => .isFalse (by simp)

/-- Association-list model of a Python dict: `alookup` is `d.get(k)`. -/
def alookup {α : Type} (k : String) : List (String × α) → Option α
  | [] => none
  | (k', v) :: rest => if k' = k then some v else alookup k rest

/-- Association-list model of `d[k] = v`: an existing key keeps its position
and receives the new value, a new key is appended at the end, exactly like a
Python dict assignment. -/
def ainsert {α : Type} (k : String) (v : α) : List (String × α) → List (String × α)
  | [] => [(k, v)]
  | (k', v') :: rest => if k' = k then (k, v) :: rest else (k', v') :: ainsert k v rest

/-- Keys of an association-list dict. -/
def akeys {α : Type} (m : List (String × α)) : List String := m.map Prod.fst

/-- One trading day's row of the normalized OHLCV frame produced by
`fetch_ohlcv_frame`: columns date/open/high/low/close/volume.  The date is the
already-normalized string; prices are modelled as exact rationals (the frame
holds finite floats).  `open` is a Lean keyword, so the field is named
`open_`, matching the local name used in `compute_indicators_frame`. -/
structure OhlcvRow where
  date : String
  open_ : ℚ
  high : ℚ
  low : ℚ
  close : ℚ
  volume : ℚ
deriving DecidableEq, Repr

/-- Contract schema `OhlcvDaily` (contract/schemas/market.py).  `FiniteFloat`
fields carry no pydantic constraint (finiteness is a documented assumption),
`volume : NonNegativeFloat` is validated with `ge=0`. -/
structure OhlcvDaily where
  open_ : ℚ
  high : ℚ
  low : ℚ
  close : ℚ
  adj_close : Option ℚ := none
  volume : ℚ
deriving DecidableEq, Repr

/-- The record `OhlcvDaily.model_validate` builds from one frame row when
validation succeeds. -/
def ohlcvOfRow (r : OhlcvRow) : OhlcvDaily :=
  { open_ := r.open_, high := r.high, low := r.low, close := r.close,
    adj_close := none, volume := r.volume }

/-- Pydantic construction of `OhlcvDaily` from the payload dict built in
`frame_to_ohlcv_by_date`: the only failing constraint is `volume >= 0`. -/
def OhlcvDaily.model_validate (r : OhlcvRow) : Except String OhlcvDaily :=
  if r.volume < 0 then .error "volume must be >= 0" else .ok (ohlcvOfRow r)

/-- Date key of a frame row: `str(dt)[:10]` (the `pd.Timestamp` branch
`dt.date().isoformat()` produces the same 10-character `YYYY-MM-DD` form). -/
def rowDateKey (r : OhlcvRow) : String := r.date.take 10

/-- Embedding of `frame_to_ohlcv_by_date` (domain/rules/market_data.py):
walks the frame rows in order and assigns `by_date[date_key] = OhlcvDaily(...)`,
so a later row with the same date key overwrites an earlier one.  A pydantic
validation error propagates out of the loop. -/
def frame_to_ohlcv_by_date (ohlcv_frame : List OhlcvRow) :
    Except String (List (String × OhlcvDaily)) :=
  ohlcv_frame.foldlM
    (fun by_date row => do
      let daily ← OhlcvDaily.model_validate row
      .ok (ainsert (rowDateKey row) daily by_date))
    []

/-- A pandas Series aligned with the frame's positional index.  Positions
beyond the frame are never consulted by backward-looking windows; they are
mapped to NaN. -/
def Ser : Type := Nat → PyFloat

/-- Column extraction: `pd.to_numeric(frame[col]).astype(float64)`, all frame
cells being finite. -/
def col (f : OhlcvRow → ℚ) (rows : List OhlcvRow) : Ser := fun i =>
  match rows[i]? with
  | some r => .fin (f r)
  | none => .nan

/-- Counterpart of `Series.shift(n)`: the first `n` positions become NaN. -/
def shiftN (n : Nat) (s : Ser) : Ser := fun i => if i < n then .nan else s (i - n)

/-- Counterpart of `Series.pct_change(n) = s / s.shift(n) - 1`. -/
def pctChange (n : Nat) (s : Ser) : Ser := fun i =>
  pySub (pyDiv (s i) (shiftN n s i)) (.fin 1)

/-- The window of the `N` positions ending at `i` (meaningful when
`N ≤ i + 1`). -/
def window (N : Nat) (s : Ser) (i : Nat) : List PyFloat :=
  (List.range N).map (fun k => s (i + 1 - N + k))

/-- Extracts the finite values of a window; `none` when any entry is
non-finite, matching pandas rolling aggregation with the default
`min_periods = N` (a NaN inside a size-`N` window leaves fewer than `N`
observations, so the aggregate is NaN). -/
def finVals? (l : List PyFloat) : Option (List ℚ) :=
  l.mapM (fun v => match v with | .fin q => some q | _ => none)

/-- Counterpart of `Series.rolling(N).mean()`. -/
def rollingMean (N : Nat) (s : Ser) : Ser := fun i =>
  if i + 1 < N then .nan
  else
    match finVals? (window N s i) with
    | some qs => .fin (qs.sum / (N : ℚ))
    | none => .nan

/-- Counterpart of `Series.rolling(N).max()`. -/
def rollingMax (N : Nat) (s : Ser) : Ser := fun i =>
  if i + 1 < N then .nan
  else
    match finVals? (window N s i) with
    | some (q :: qs) => .fin (qs.foldl max q)
    | _ => .nan

/-- Counterpart of `Series.rolling(N).min()`. -/
def rollingMin (N : Nat) (s : Ser) : Ser := fun i =>
  if i + 1 < N then .nan
  else
    match finVals? (window N s i) with
    | some (q :: qs) => .fin (qs.foldl min q)
    | _ => .nan

/-- Model of `Series.rolling(N).std()` (sample standard deviation, ddof=1):
NaN when fewer than `N` rows are available or the window holds a non-finite
value, otherwise the window's sample variance.  The pandas statistic is the
square root of this value; the square root of a nonnegative finite float is
nonnegative and finite and the square root of NaN is NaN, so the missing-value
positions, finiteness and nonnegativity — the only properties claimed about
std-derived fields — coincide between the model and the statistic. -/
def rollingStd (N : Nat) (s : Ser) : Ser := fun i =>
  if i + 1 < N then .nan
  else
    match finVals? (window N s i) with
    | some qs =>
        .fin (((qs.map (fun x => (x - qs.sum / (N : ℚ)) ^ 2)).sum) / ((N : ℚ) - 1))
    | none => .nan

/-- Rational stand-in for `math.log` on a positive finite float.  `math.log`
maps every positive finite float to a finite float, so any finite-valued
stand-in preserves the missing-value and finiteness structure, which is all
the claims use of `logret_1d` and of `vol_20d` derived from it. -/
def logModel (r : ℚ) : ℚ := r - 1

/-- Counterpart of `ratio.where(ratio > 0).apply(math.log)`: positions where
the ratio is not strictly positive (NaN compares false) become NaN, positive
finite positions get the log stand-in, a +inf ratio stays +inf
(`math.log(inf) = inf`). -/
def pyLogWhere (x : PyFloat) : PyFloat :=
  match x with
  | .fin r => if 0 < r then .fin (logModel r) else .nan
  | .inf => .inf
  | _ => .nan

/-- Counterpart of `Series.ewm(span=n, adjust=False).mean()` on an all-finite
series, with `a = 2 / (span + 1)`:  `y_0 = x_0`, `y_i = a x_i + (1-a) y_(i-1)`. -/
def ewmaQ (a : ℚ) (s : Nat → ℚ) : Nat → ℚ
  | 0 => s 0
  | i + 1 => a * s (i + 1) + (1 - a) * ewmaQ a s i

/-- Close column as exact rationals (junk 0 beyond the frame; the EMA-derived
fields are only consulted at in-frame positions). -/
def closeQ (rows : List OhlcvRow) (i : Nat) : ℚ :=
  match rows[i]? with
  | some r => r.close
  | none => 0

/-- Volume column as exact rationals. -/
def volumeQ (rows : List OhlcvRow) (i : Nat) : ℚ :=
  match rows[i]? with
  | some r => r.volume
  | none => 0

section IndicatorSeries

variable (rows : List OhlcvRow)

/-- Series `close` of `compute_indicators_frame`. -/
def closeS : Ser := col OhlcvRow.close rows

/-- Series `open_`. -/
def openS : Ser := col OhlcvRow.open_ rows

/-- Series `high`. -/
def highS : Ser := col OhlcvRow.high rows

/-- Series `low`. -/
def lowS : Ser := col OhlcvRow.low rows

/-- Series `volume`. -/
def volumeS : Ser := col OhlcvRow.volume rows

/-- Series `prev_close = close.shift(1)`. -/
def prev_close : Ser := shiftN 1 (closeS rows)

/-- Series `ret_1d = close.pct_change(1)`. -/
def ret_1d : Ser := pctChange 1 (closeS rows)

/-- Series `ret_5d = close.pct_change(5)`. -/
def ret_5d : Ser := pctChange 5 (closeS rows)

/-- Series `ret_20d = close.pct_change(20)`. -/
def ret_20d : Ser := pctChange 20 (closeS rows)

/-- Series `ratio = close / prev_close`. -/
def ratioS : Ser := fun i => pyDiv (closeS rows i) (prev_close rows i)

/-- Series `logret_1d = ratio.where(ratio > 0).apply(math.log)`. -/
def logret_1d : Ser := fun i => pyLogWhere (ratioS rows i)

/-- Series `vol_20d = logret_1d.rolling(20).std()`. -/
def vol_20d : Ser := rollingStd 20 (logret_1d rows)

/-- Series `true_range`: row-wise skipna maximum of `|high - low|`,
`|high - prev_close|`, `|low - prev_close|`. -/
def true_range : Ser := fun i =>
  pyMaxSkip3 (pyAbs (pySub (highS rows i) (lowS rows i)))
    (pyAbs (pySub (highS rows i) (prev_close rows i)))
    (pyAbs (pySub (lowS rows i) (prev_close rows i)))

/-- Series `atr_14 = true_range.rolling(14).mean()`. -/
def atr_14 : Ser := rollingMean 14 (true_range rows)

/-- Series `sma_5 = close.rolling(5).mean()`. -/
def sma_5 : Ser := rollingMean 5 (closeS rows)

/-- Series `sma_20 = close.rolling(20).mean()`. -/
def sma_20 : Ser := rollingMean 20 (closeS rows)

/-- Series `sma_50 = close.rolling(50).mean()`. -/
def sma_50 : Ser := rollingMean 50 (closeS rows)

/-- Series `ema_20 = close.ewm(span=20, adjust=False).mean()`,
`a = 2/21`. -/
def ema_20 : Ser := fun i => .fin (ewmaQ (2 / 21) (closeQ rows) i)

/-- Series `ema_50`, `a = 2/51`. -/
def ema_50 : Ser := fun i => .fin (ewmaQ (2 / 51) (closeQ rows) i)

/-- Series `close_over_sma_20 = close / sma_20`. -/
def close_over_sma_20 : Ser := fun i => pyDiv (closeS rows i) (sma_20 rows i)

/-- Series `close_over_sma_50 = close / sma_50`. -/
def close_over_sma_50 : Ser := fun i => pyDiv (closeS rows i) (sma_50 rows i)

/-- Series `delta = close.diff()`. -/
def deltaS : Ser := fun i => pySub (closeS rows i) (prev_close rows i)

/-- Series `gain = delta.clip(lower=0)`. -/
def gainS : Ser := fun i => pyClip0 (deltaS rows i)

/-- Series `loss = (-delta).clip(lower=0)`. -/
def lossS : Ser := fun i => pyClip0 (pyNeg (deltaS rows i))

/-- Series `avg_gain = gain.rolling(14).mean()`. -/
def avg_gain : Ser := rollingMean 14 (gainS rows)

/-- Series `avg_loss = loss.rolling(14).mean()`. -/
def avg_loss : Ser := rollingMean 14 (lossS rows)

/-- Series `rs = avg_gain / avg_loss`. -/
def rsS : Ser := fun i => pyDiv (avg_gain rows i) (avg_loss rows i)

/-- Series `rsi_14 = 100 - (100 / (1 + rs))`. -/
def rsi_14 : Ser := fun i =>
  pySub (.fin 100) (pyDiv (.fin 100) (pyAdd (.fin 1) (rsS rows i)))

/-- Series `hh14 = high.rolling(14).max()`. -/
def hh14 : Ser := rollingMax 14 (highS rows)

/-- Series `ll14 = low.rolling(14).min()`. -/
def ll14 : Ser := rollingMin 14 (lowS rows)

/-- Series `stoch_k_14 = (close - ll14) / (hh14 - ll14) * 100`. -/
def stoch_k_14 : Ser := fun i =>
  pyMul (pyDiv (pySub (closeS rows i) (ll14 rows i))
      (pySub (hh14 rows i) (ll14 rows i)))
    (.fin 100)

/-- Series `stoch_d_3 = stoch_k_14.rolling(3).mean()`. -/
def stoch_d_3 : Ser := rollingMean 3 (stoch_k_14 rows)

/-- Series `macd = ema_12 - ema_26` as exact rationals (`a = 2/13`,
`a = 2/27`). -/
def macdQ (i : Nat) : ℚ :=
  ewmaQ (2 / 13) (closeQ rows) i - ewmaQ (2 / 27) (closeQ rows) i

/-- Series `macd`. -/
def macd : Ser := fun i => .fin (macdQ rows i)

/-- Series `macd_signal = macd.ewm(span=9, adjust=False).mean()`,
`a = 2/10 = 1/5`. -/
def macd_signal : Ser := fun i => .fin (ewmaQ (1 / 5) (macdQ rows) i)

/-- Series `macd_hist = macd - macd_signal`. -/
def macd_hist : Ser := fun i =>
  .fin (macdQ rows i - ewmaQ (1 / 5) (macdQ rows) i)

/-- Series `bb_mid_20 = sma_20`. -/
def bb_mid_20 : Ser := sma_20 rows

/-- Series `bb_std_20 = close.rolling(20).std()`. -/
def bb_std_20 : Ser := rollingStd 20 (closeS rows)

/-- Series `bb_upper_20_2 = bb_mid_20 + 2 * bb_std_20`. -/
def bb_upper_20_2 : Ser := fun i =>
  pyAdd (bb_mid_20 rows i) (pyMul (.fin 2) (bb_std_20 rows i))

/-- Series `bb_lower_20_2 = bb_mid_20 - 2 * bb_std_20`. -/
def bb_lower_20_2 : Ser := fun i =>
  pySub (bb_mid_20 rows i) (pyMul (.fin 2) (bb_std_20 rows i))

/-- Series `bb_width_20_2 = (bb_upper - bb_lower) / bb_mid`. -/
def bb_width_20_2 : Ser := fun i =>
  pyDiv (pySub (bb_upper_20_2 rows i) (bb_lower_20_2 rows i)) (bb_mid_20 rows i)

/-- Series `bb_percent_b_20_2 = (close - bb_lower) / (bb_upper - bb_lower)`. -/
def bb_percent_b_20_2 : Ser := fun i =>
  pyDiv (pySub (closeS rows i) (bb_lower_20_2 rows i))
    (pySub (bb_upper_20_2 rows i) (bb_lower_20_2 rows i))

/-- Series `hl_range = (high - low).abs()`. -/
def hl_range : Ser := fun i => pyAbs (pySub (highS rows i) (lowS rows i))

/-- Series `body = close - open_`. -/
def body : Ser := fun i => pySub (closeS rows i) (openS rows i)

/-- Series `upper_wick = (high - max(open_, close)).clip(lower=0)`. -/
def upper_wick : Ser := fun i =>
  pyClip0 (pySub (highS rows i) (pyMaxSkip (openS rows i) (closeS rows i)))

/-- Series `lower_wick = (min(open_, close) - low).clip(lower=0)`. -/
def lower_wick : Ser := fun i =>
  pyClip0 (pySub (pyMinSkip (openS rows i) (closeS rows i)) (lowS rows i))

/-- Series `gap = open_ - prev_close`. -/
def gap : Ser := fun i => pySub (openS rows i) (prev_close rows i)

/-- Series `gap_pct = gap / prev_close`. -/
def gap_pct : Ser := fun i => pyDiv (gap rows i) (prev_close rows i)

/-- Series `v_sma_20 = volume.rolling(20).mean()`. -/
def v_sma_20 : Ser := rollingMean 20 (volumeS rows)

/-- Series `v_ratio_20 = volume / v_sma_20`. -/
def v_ratio_20 : Ser := fun i => pyDiv (volumeS rows i) (v_sma_20 rows i)

/-- Series `direction = (delta_close > 0) - (delta_close < 0)` as int8;
`NaN > 0` and `NaN < 0` are both false, so position 0 gets 0. -/
def direction (i : Nat) : ℤ :=
  match i with
  | 0 => 0
  | j + 1 =>
      let d := closeQ rows (j + 1) - closeQ rows j
      (if 0 < d then 1 else 0) - (if d < 0 then 1 else 0)

/-- Series `obv = (direction * volume).fillna(0).cumsum()` as exact
rationals. -/
def obvQ : Nat → ℚ
  | 0 => (direction rows 0 : ℚ) * volumeQ rows 0
  | i + 1 => obvQ i + (direction rows (i + 1) : ℚ) * volumeQ rows (i + 1)

/-- Series `obv`. -/
def obv : Ser := fun i => .fin (obvQ rows i)

/-- Series `hh_20 = high.rolling(20).max()`. -/
def hh_20 : Ser := rollingMax 20 (highS rows)

/-- Series `ll_20 = low.rolling(20).min()`. -/
def ll_20 : Ser := rollingMin 20 (lowS rows)

/-- Series `close_to_hh_20 = close / hh_20`. -/
def close_to_hh_20 : Ser := fun i => pyDiv (closeS rows i) (hh_20 rows i)

/-- Series `close_to_ll_20 = close / ll_20`. -/
def close_to_ll_20 : Ser := fun i => pyDiv (closeS rows i) (ll_20 rows i)

end IndicatorSeries

/-- One row of the indicator DataFrame assembled at the end of
`compute_indicators_frame`, before any sanitization: raw float values that may
be NaN or infinite. -/
structure RawIndicators where
  ret_1d : PyFloat
  ret_5d : PyFloat
  ret_20d : PyFloat
  logret_1d : PyFloat
  vol_20d : PyFloat
  atr_14 : PyFloat
  sma_5 : PyFloat
  sma_20 : PyFloat
  sma_50 : PyFloat
  ema_20 : PyFloat
  ema_50 : PyFloat
  close_over_sma_20 : PyFloat
  close_over_sma_50 : PyFloat
  rsi_14 : PyFloat
  stoch_k_14 : PyFloat
  stoch_d_3 : PyFloat
  macd : PyFloat
  macd_signal : PyFloat
  macd_hist : PyFloat
  bb_mid_20 : PyFloat
  bb_upper_20_2 : PyFloat
  bb_lower_20_2 : PyFloat
  bb_width_20_2 : PyFloat
  bb_percent_b_20_2 : PyFloat
  true_range : PyFloat
  hl_range : PyFloat
  body : PyFloat
  upper_wick : PyFloat
  lower_wick : PyFloat
  gap : PyFloat
  gap_pct : PyFloat
  v_sma_20 : PyFloat
  v_ratio_20 : PyFloat
  obv : PyFloat
  hh_20 : PyFloat
  ll_20 : PyFloat
  close_to_hh_20 : PyFloat
  close_to_ll_20 : PyFloat
deriving DecidableEq, Repr

/-- The indicator row of `compute_indicators_frame` at position `i`. -/
def computeIndicatorsRow (rows : List OhlcvRow) (i : Nat) : RawIndicators :=
  { ret_1d := ret_1d rows i
    ret_5d := ret_5d rows i
    ret_20d := ret_20d rows i
    logret_1d := logret_1d rows i
    vol_20d := vol_20d rows i
    atr_14 := atr_14 rows i
    sma_5 := sma_5 rows i
    sma_20 := sma_20 rows i
    sma_50 := sma_50 rows i
    ema_20 := ema_20 rows i
    ema_50 := ema_50 rows i
    close_over_sma_20 := close_over_sma_20 rows i
    close_over_sma_50 := close_over_sma_50 rows i
    rsi_14 := rsi_14 rows i
    stoch_k_14 := stoch_k_14 rows i
    stoch_d_3 := stoch_d_3 rows i
    macd := macd rows i
    macd_signal := macd_signal rows i
    macd_hist := macd_hist rows i
    bb_mid_20 := bb_mid_20 rows i
    bb_upper_20_2 := bb_upper_20_2 rows i
    bb_lower_20_2 := bb_lower_20_2 rows i
    bb_width_20_2 := bb_width_20_2 rows i
    bb_percent_b_20_2 := bb_percent_b_20_2 rows i
    true_range := true_range rows i
    hl_range := hl_range rows i
    body := body rows i
    upper_wick := upper_wick rows i
    lower_wick := lower_wick rows i
    gap := gap rows i
    gap_pct := gap_pct rows i
    v_sma_20 := v_sma_20 rows i
    v_ratio_20 := v_ratio_20 rows i
    obv := obv rows i
    hh_20 := hh_20 rows i
    ll_20 := ll_20 rows i
    close_to_hh_20 := close_to_hh_20 rows i
    close_to_ll_20 := close_to_ll_20 rows i }

/-- Date key of the indicator frame's index at position `i`
(`_date_key_series`: the date string sliced to `YYYY-MM-DD`). -/
def date_key_at (rows : List OhlcvRow) (i : Nat) : String :=
  match rows[i]? with
  | some r => r.date.take 10
  | none => ""

/-- Contract schema `IndicatorsDaily` (contract/schemas/market.py): about 38
optional fields; a missing indicator is `none`, never a placeholder number.
All defaults are `none`, so `{}` is the bare `IndicatorsDaily()` used by
`build_decision_core_by_date` for dates without indicators. -/
structure IndicatorsDaily where
  ret_1d : Option ℚ := none
  ret_5d : Option ℚ := none
  ret_20d : Option ℚ := none
  logret_1d : Option ℚ := none
  vol_20d : Option ℚ := none
  atr_14 : Option ℚ := none
  sma_5 : Option ℚ := none
  sma_20 : Option ℚ := none
  sma_50 : Option ℚ := none
  ema_20 : Option ℚ := none
  ema_50 : Option ℚ := none
  close_over_sma_20 : Option ℚ := none
  close_over_sma_50 : Option ℚ := none
  rsi_14 : Option ℚ := none
  stoch_k_14 : Option ℚ := none
  stoch_d_3 : Option ℚ := none
  macd : Option ℚ := none
  macd_signal : Option ℚ := none
  macd_hist : Option ℚ := none
  bb_mid_20 : Option ℚ := none
  bb_upper_20_2 : Option ℚ := none
  bb_lower_20_2 : Option ℚ := none
  bb_width_20_2 : Option ℚ := none
  bb_percent_b_20_2 : Option ℚ := none
  true_range : Option ℚ := none
  hl_range : Option ℚ := none
  body : Option ℚ := none
  upper_wick : Option ℚ := none
  lower_wick : Option ℚ := none
  gap : Option ℚ := none
  gap_pct : Option ℚ := none
  v_sma_20 : Option ℚ := none
  v_ratio_20 : Option ℚ := none
  obv : Option ℚ := none
  hh_20 : Option ℚ := none
  ll_20 : Option ℚ := none
  close_to_hh_20 : Option ℚ := none
  close_to_ll_20 : Option ℚ := none
deriving DecidableEq, Repr

/-- Step 1 of `_validate_indicators`: a NaN or infinite float is coerced to
`None`; a finite value passes through. -/
def sanitize : PyFloat → Option ℚ
  | .fin q => some q
  | _ => none

/-- The record `_validate_indicators` hands to pydantic after sanitization. -/
def sanitizedIndicators (r : RawIndicators) : IndicatorsDaily :=
  { ret_1d := sanitize r.ret_1d
    ret_5d := sanitize r.ret_5d
    ret_20d := sanitize r.ret_20d
    logret_1d := sanitize r.logret_1d
    vol_20d := sanitize r.vol_20d
    atr_14 := sanitize r.atr_14
    sma_5 := sanitize r.sma_5
    sma_20 := sanitize r.sma_20
    sma_50 := sanitize r.sma_50
    ema_20 := sanitize r.ema_20
    ema_50 := sanitize r.ema_50
    close_over_sma_20 := sanitize r.close_over_sma_20
    close_over_sma_50 := sanitize r.close_over_sma_50
    rsi_14 := sanitize r.rsi_14
    stoch_k_14 := sanitize r.stoch_k_14
    stoch_d_3 := sanitize r.stoch_d_3
    macd := sanitize r.macd
    macd_signal := sanitize r.macd_signal
    macd_hist := sanitize r.macd_hist
    bb_mid_20 := sanitize r.bb_mid_20
    bb_upper_20_2 := sanitize r.bb_upper_20_2
    bb_lower_20_2 := sanitize r.bb_lower_20_2
    bb_width_20_2 := sanitize r.bb_width_20_2
    bb_percent_b_20_2 := sanitize r.bb_percent_b_20_2
    true_range := sanitize r.true_range
    hl_range := sanitize r.hl_range
    body := sanitize r.body
    upper_wick := sanitize r.upper_wick
    lower_wick := sanitize r.lower_wick
    gap := sanitize r.gap
    gap_pct := sanitize r.gap_pct
    v_sma_20 := sanitize r.v_sma_20
    v_ratio_20 := sanitize r.v_ratio_20
    obv := sanitize r.obv
    hh_20 := sanitize r.hh_20
    ll_20 := sanitize r.ll_20
    close_to_hh_20 := sanitize r.close_to_hh_20
    close_to_ll_20 := sanitize r.close_to_ll_20 }

/-- Check of a pydantic `NonNegativeFloat | None` field. -/
def nonNegOk : Option ℚ → Bool
  | some q => decide (0 ≤ q)
  | none => true

/-- Embedding of `_validate_indicators`: sanitize every field, then pydantic
validation, whose only failing constraints are `ge=0` on the
`NonNegativeFloat` fields.  Construction is all-or-nothing. -/
def validateIndicators (r : RawIndicators) : Except String IndicatorsDaily :=
  let d := sanitizedIndicators r
  if nonNegOk d.vol_20d && nonNegOk d.atr_14 && nonNegOk d.bb_width_20_2 &&
      nonNegOk d.true_range && nonNegOk d.hl_range && nonNegOk d.upper_wick &&
      nonNegOk d.lower_wick && nonNegOk d.v_sma_20 then
    .ok d
  else
    .error "IndicatorsDaily validation failed"

/-- Field values of an `IndicatorsDaily`, in schema order. -/
def IndicatorsDaily.fieldList (d : IndicatorsDaily) : List (Option ℚ) :=
  [d.ret_1d, d.ret_5d, d.ret_20d, d.logret_1d, d.vol_20d, d.atr_14, d.sma_5,
   d.sma_20, d.sma_50, d.ema_20, d.ema_50, d.close_over_sma_20,
   d.close_over_sma_50, d.rsi_14, d.stoch_k_14, d.stoch_d_3, d.macd,
   d.macd_signal, d.macd_hist, d.bb_mid_20, d.bb_upper_20_2, d.bb_lower_20_2,
   d.bb_width_20_2, d.bb_percent_b_20_2, d.true_range, d.hl_range, d.body,
   d.upper_wick, d.lower_wick, d.gap, d.gap_pct, d.v_sma_20, d.v_ratio_20,
   d.obv, d.hh_20, d.ll_20, d.close_to_hh_20, d.close_to_ll_20]

/-- Field values of a raw indicator row, in the same order. -/
def RawIndicators.fieldList (r : RawIndicators) : List PyFloat :=
  [r.ret_1d, r.ret_5d, r.ret_20d, r.logret_1d, r.vol_20d, r.atr_14, r.sma_5,
   r.sma_20, r.sma_50, r.ema_20, r.ema_50, r.close_over_sma_20,
   r.close_over_sma_50, r.rsi_14, r.stoch_k_14, r.stoch_d_3, r.macd,
   r.macd_signal, r.macd_hist, r.bb_mid_20, r.bb_upper_20_2, r.bb_lower_20_2,
   r.bb_width_20_2, r.bb_percent_b_20_2, r.true_range, r.hl_range, r.body,
   r.upper_wick, r.lower_wick, r.gap, r.gap_pct, r.v_sma_20, r.v_ratio_20,
   r.obv, r.hh_20, r.ll_20, r.close_to_hh_20, r.close_to_ll_20]

/-- Embedding of `build_indicators_by_date`: one validated `IndicatorsDaily`
per frame row, keyed by date string; a pydantic failure propagates. -/
def build_indicators_by_date (rows : List OhlcvRow) :
    Except String (List (String × IndicatorsDaily)) :=
  (List.range rows.length).foldlM
    (fun out i => do
      let ind ← validateIndicators (computeIndicatorsRow rows i)
      .ok (ainsert (date_key_at rows i) ind out))
    []

/-- Market enum of contract/schemas/policy.py. -/
inductive Market where
  | JP
  | US
deriving DecidableEq, Repr

/-- Currency enum of contract/schemas/policy.py. -/
inductive Currency where
  | JPY
  | USD
deriving DecidableEq, Repr

/-- String value of a `Market` member (`class Market(str, Enum)`). -/
def Market.toStr : Market → String
  | .JP => "JP"
  | .US => "US"

/-- String value of a `Currency` member. -/
def Currency.toStr : Currency → String
  | .JPY => "JPY"
  | .USD => "USD"

/-- Contract schema `AccountPolicy`. -/
structure AccountPolicy where
  equity : ℚ
  currency : Currency := Currency.JPY
deriving DecidableEq, Repr

/-- Contract schema `RiskPolicy`, with its declared defaults. -/
structure RiskPolicy where
  risk_per_trade_pct : ℚ := 1 / 200
  max_position_pct : ℚ := 1 / 10
  max_concurrent_positions : ℤ := 10
deriving DecidableEq, Repr

/-- Contract schema `ExecutionPolicy`. -/
structure ExecutionPolicy where
  slippage_pct : ℚ := 1 / 1000
  commission_per_order : ℚ := 0
  tax_pct : ℚ := 0
deriving DecidableEq, Repr

/-- Contract schema `MarketConstraints`. -/
structure MarketConstraints where
  market : Market
  lot_size : ℤ
  min_price : ℚ := 0
  min_avg_dollar_volume : ℚ := 0
  impact_cap_pct : ℚ := 0
deriving DecidableEq, Repr

/-- Contract schema `TradePlanPolicy`. -/
structure TradePlanPolicy where
  entry_buffer_pct : ℚ := 1 / 1000
  atr_n : ℤ := 14
  atr_stop_k : ℚ := 2
  swing_lookback : ℤ := 20
  time_stop_days : ℤ := 40
deriving DecidableEq, Repr

/-- Contract schema `UserPolicySnapshot`: the operator's frozen assumptions
for a run. -/
structure UserPolicySnapshot where
  account : AccountPolicy
  risk : RiskPolicy := {}
  execution : ExecutionPolicy := {}
  constraints : MarketConstraints
  trade_plan : TradePlanPolicy := {}
deriving DecidableEq, Repr

/-- Stand-in for Python's shortest-repr serialization of a float inside
`json.dumps`: any function of the exact value serves the fingerprint's
determinism (and this one is injective on ℚ). -/
def qJson (q : ℚ) : String :=
  toString q.num ++ (if q.den = 1 then "" else "/" ++ toString q.den)

/-- JSON string literal (the serialized policy holds no characters needing
escapes). -/
def jstr (s : String) : String := "\"" ++ s ++ "\""

/-- JSON object with `separators=(",", ":")`; the caller lists the keys in
sorted order, mirroring `sort_keys=True`. -/
def jobj (fields : List (String × String)) : String :=
  "\x7b" ++ String.intercalate "," (fields.map (fun kv => jstr kv.1 ++ ":" ++ kv.2)) ++ "\x7d"

/-- Canonical serialization `json.dumps(policy.model_dump(), sort_keys=True,
separators=(",", ":"))`: keys sorted alphabetically at every level. -/
def UserPolicySnapshot.model_dump_json (p : UserPolicySnapshot) : String :=
  jobj
    [("account", jobj
        [("currency", jstr p.account.currency.toStr),
         ("equity", qJson p.account.equity)]),
     ("constraints", jobj
        [("impact_cap_pct", qJson p.constraints.impact_cap_pct),
         ("lot_size", toString p.constraints.lot_size),
         ("market", jstr p.constraints.market.toStr),
         ("min_avg_dollar_volume", qJson p.constraints.min_avg_dollar_volume),
         ("min_price", qJson p.constraints.min_price)]),
     ("execution", jobj
        [("commission_per_order", qJson p.execution.commission_per_order),
         ("slippage_pct", qJson p.execution.slippage_pct),
         ("tax_pct", qJson p.execution.tax_pct)]),
     ("risk", jobj
        [("max_concurrent_positions", toString p.risk.max_concurrent_positions),
         ("max_position_pct", qJson p.risk.max_position_pct),
         ("risk_per_trade_pct", qJson p.risk.risk_per_trade_pct)]),
     ("trade_plan", jobj
        [("atr_n", toString p.trade_plan.atr_n),
         ("atr_stop_k", qJson p.trade_plan.atr_stop_k),
         ("entry_buffer_pct", qJson p.trade_plan.entry_buffer_pct),
         ("swing_lookback", toString p.trade_plan.swing_lookback),
         ("time_stop_days", toString p.trade_plan.time_stop_days)])]

/-- UTF-8 bytes of the serialized policy; the canonical serialization is pure
ASCII, where the UTF-8 code units coincide with the character codes. -/
def strBytes (s : String) : List Nat := s.toList.map Char.toNat

/-- Truncation of a natural to 32 bits. -/
def w32 (n : Nat) : Nat := n % 4294967296

/-- Left rotation of a 32-bit word by `b` bits: low and high parts occupy
disjoint bit ranges, so their sum is their bitwise or. -/
def rotl (b n : Nat) : Nat := w32 (n * 2 ^ b) + n / 2 ^ (32 - b)

/-- SHA-1 round function. -/
def sha1F (t b c d : Nat) : Nat :=
  if t < 20 then Nat.lor (Nat.land b c) (Nat.land (Nat.xor b 4294967295) d)
  else if t < 40 then Nat.xor (Nat.xor b c) d
  else if t < 60 then Nat.lor (Nat.lor (Nat.land b c) (Nat.land b d)) (Nat.land c d)
  else Nat.xor (Nat.xor b c) d

/-- SHA-1 round constants. -/
def sha1K (t : Nat) : Nat :=
  if t < 20 then 0x5A827999
  else if t < 40 then 0x6ED9EBA1
  else if t < 60 then 0x8F1BBCDC
  else 0xCA62C1D6

/-- Big-endian byte expansion (`k` bytes). -/
def beBytes (k n : Nat) : List Nat :=
  (List.range k).map (fun i => n / 2 ^ (8 * (k - 1 - i)) % 256)

/-- SHA-1 message padding: a 0x80 byte, zeros to 56 mod 64, then the bit
length in 8 big-endian bytes. -/
def sha1Pad (msg : List Nat) : List Nat :=
  msg ++ [128] ++ List.replicate ((119 - msg.length % 64) % 64) 0 ++ beBytes 8 (msg.length * 8)

/-- Splits a byte list into 64-byte blocks. -/
def chunk64 (l : List Nat) : List (List Nat) :=
  if h : l = [] then []
  else (l.take 64) :: chunk64 (l.drop 64)
termination_by l.length
decreasing_by
  have hl : l.length ≠ 0 := fun hz => h (List.eq_nil_of_length_eq_zero hz)
  simp only [List.length_drop]
  omega

/-- Splits a 64-byte block into 4-byte groups. -/
def chunk4 (l : List Nat) : List (List Nat) :=
  if h : l = [] then []
  else (l.take 4) :: chunk4 (l.drop 4)
termination_by l.length
decreasing_by
  have hl : l.length ≠ 0 := fun hz => h (List.eq_nil_of_length_eq_zero hz)
  simp only [List.length_drop]
  omega

/-- A 32-bit word from 4 big-endian bytes. -/
def wordOfBytes : List Nat → Nat
  | [a, b, c, d] => ((a * 256 + b) * 256 + c) * 256 + d
  | _ => 0

/-- Extends the 16 schedule words by `n` more words. -/
def extendW (w : List Nat) : Nat → List Nat
  | 0 => w
  | n + 1 =>
      let w' := extendW w n
      w' ++ [rotl 1 (Nat.xor
        (Nat.xor (w'.getD (w'.length - 3) 0) (w'.getD (w'.length - 8) 0))
        (Nat.xor (w'.getD (w'.length - 14) 0) (w'.getD (w'.length - 16) 0)))]

/-- SHA-1 compression of one 16-word block into the running state. -/
def sha1Compress (h : Nat × Nat × Nat × Nat × Nat) (blk : List Nat) :
    Nat × Nat × Nat × Nat × Nat :=
  let w := extendW blk 64
  let st := (List.range 80).foldl
    (fun (st : Nat × Nat × Nat × Nat × Nat) t =>
      let a := st.1
      let b := st.2.1
      let c := st.2.2.1
      let d := st.2.2.2.1
      let e := st.2.2.2.2
      (w32 (rotl 5 a + sha1F t b c d + e + sha1K t + w.getD t 0),
        a, rotl 30 b, c, d))
    h
  (w32 (h.1 + st.1), w32 (h.2.1 + st.2.1), w32 (h.2.2.1 + st.2.2.1),
    w32 (h.2.2.2.1 + st.2.2.2.1), w32 (h.2.2.2.2 + st.2.2.2.2))

/-- Hexadecimal digit. -/
def hexDigit (d : Nat) : Char := Char.ofNat (if d < 10 then 48 + d else 87 + d)

/-- Lower-case hexadecimal rendering of a 32-bit word. -/
def hex8 (n : Nat) : String :=
  String.mk ((List.range 8).map (fun i => hexDigit (n / 2 ^ (4 * (7 - i)) % 16)))

/-- SHA-1 hex digest of a byte string (`hashlib.sha1(...).hexdigest()`). -/
def sha1Hex (msg : List Nat) : String :=
  let blocks := (chunk64 (sha1Pad msg)).map (fun b => (chunk4 b).map wordOfBytes)
  let h := blocks.foldl sha1Compress
    (0x67452301, 0xEFCDAB89, 0x98BADCFE, 0x10325476, 0xC3D2E1F0)
  hex8 h.1 ++ hex8 h.2.1 ++ hex8 h.2.2.1 ++ hex8 h.2.2.2.1 ++ hex8 h.2.2.2.2

/-- Embedding of `_policy_snapshot_id`: the deterministic short id is the
first 12 hex characters of the SHA-1 of the canonical policy serialization. -/
def policy_snapshot_id (policy : UserPolicySnapshot) : String :=
  (sha1Hex (strBytes policy.model_dump_json)).take 12

/-- Buy signal enum of contract/schemas/market.py. -/
inductive BuySignal where
  | YES
  | YES_HALF
  | NO
deriving DecidableEq, Repr

/-- Contract schema `DecisionCore` as a plain record; `DecisionCore.construct`
below performs the pydantic validation. -/
structure DecisionCore where
  buy_signal : BuySignal
  entry : Option ℚ := none
  stop : Option ℚ := none
  target_2r : Option ℚ := none
  target_3r : Option ℚ := none
  position_size : Option ℚ := none
  max_loss : Option ℚ := none
  time_stop_days : ℤ
  plan_score : ℚ
  rank : ℤ
  plan_args : List (String × String) := []
  policy_snapshot_id : String
  warnings : List String := []
deriving DecidableEq, Repr

/-- Field-level pydantic constraints of `DecisionCore`, checked before the
model validator: `position_size` and `max_loss` are `NonNegativeFloat | None`,
`time_stop_days >= 1`, `rank >= 1`, `policy_snapshot_id` nonempty. -/
def DecisionCore.fieldConstraintsOk (d : DecisionCore) : Bool :=
  nonNegOk d.position_size && nonNegOk d.max_loss &&
  decide (1 ≤ d.time_stop_days) && decide (1 ≤ d.rank) &&
  decide (1 ≤ d.policy_snapshot_id.length)

/-- Embedding of the model validator `DecisionCore._validate_structure`: a
`NO` decision is returned unchanged; otherwise all six execution fields must
be present and satisfy `entry > stop`, `target_2r >= entry + 2R`,
`target_3r >= entry + 3R`, `position_size > 0`. -/
def DecisionCore.validate_structure (d : DecisionCore) : Except String DecisionCore :=
  if d.buy_signal = BuySignal.NO then .ok d
  else
    match d.entry, d.stop, d.target_2r, d.target_3r, d.position_size, d.max_loss with
    | some entry, some stop, some t2, some t3, some ps, some _ =>
        if entry ≤ stop then
          .error "Invalid structure: entry must be greater than stop."
        else if t2 < entry + 2 * (entry - stop) then
          .error "Invalid structure: target_2r must be >= entry + 2R."
        else if t3 < entry + 3 * (entry - stop) then
          .error "Invalid structure: target_3r must be >= entry + 3R."
        else if ps ≤ 0 then
          .error "Invalid structure: active decision requires position_size > 0."
        else .ok d
    | _, _, _, _, _, _ =>
        .error "Invalid structure: decision fields must not be None when active."

/-- Pydantic construction of a `DecisionCore`: field constraints, then the
model validator; construction never partially succeeds. -/
def DecisionCore.construct (d : DecisionCore) : Except String DecisionCore :=
  if d.fieldConstraintsOk then d.validate_structure
  else .error "DecisionCore field validation failed"

/-- The record `_build_decision_core_for_day` returns on a day without an
active structure. -/
def inactive_decision_core (date_key : String) (policy : UserPolicySnapshot)
    (pid : String) : DecisionCore :=
  { buy_signal := BuySignal.NO
    entry := none
    stop := none
    target_2r := none
    target_3r := none
    position_size := none
    max_loss := none
    time_stop_days := policy.trade_plan.time_stop_days
    plan_score := 0
    rank := 1
    plan_args := [("date", date_key), ("status", "inactive")]
    policy_snapshot_id := pid
    warnings := ["insufficient_indicators"] }

/-- Embedding of `_build_decision_core_for_day`: the structure is active only
when `hh_20` and `ll_20` are both present and `hh_20 > ll_20`; when active,
entry/stop are those levels and the targets are `entry + {2,3} * risk` (the
buy signal stays `NO`, a later gate being a placeholder in the source); when
inactive, the execution fields are absent and a warning names the cause. -/
def build_decision_core_for_day (date_key : String) (ind : IndicatorsDaily)
    (policy : UserPolicySnapshot) (pid : String) : DecisionCore :=
  match ind.hh_20, ind.ll_20 with
  | some hh_20, some ll_20 =>
      if ll_20 < hh_20 then
        let entry := hh_20
        let stop := ll_20
        let risk := entry - stop
        { buy_signal := BuySignal.NO
          entry := some entry
          stop := some stop
          target_2r := some (entry + 2 * risk)
          target_3r := some (entry + 3 * risk)
          position_size := some 0
          max_loss := some 0
          time_stop_days := policy.trade_plan.time_stop_days
          plan_score := 0
          rank := 1
          plan_args := [("date", date_key), ("status", "active")]
          policy_snapshot_id := pid
          warnings := [] }
      else inactive_decision_core date_key policy pid
  | _, _ => inactive_decision_core date_key policy pid

/-- Embedding of `build_decision_core_by_date`: one `DecisionCore` per date
key of the OHLCV map, using that date's indicators when present and a bare
`IndicatorsDaily()` otherwise. -/
def build_decision_core_by_date (ohlcv_by_date : List (String × OhlcvDaily))
    (indicators_by_date : List (String × IndicatorsDaily))
    (policy : UserPolicySnapshot) : List (String × DecisionCore) :=
  let policy_id := policy_snapshot_id policy
  (akeys ohlcv_by_date).foldl
    (fun out date_key =>
      let ind := (alookup date_key indicators_by_date).getD {}
      ainsert date_key (build_decision_core_for_day date_key ind policy policy_id) out)
    []

/-- Python exception classes reaching the orchestrator, by taxonomy position:
`SkipSymbol`, `DegradedError`, `FatalError`, its subclass `ContractViolation`
and any other `MarketDecisionEngineError` are the classified kinds
(exceptions.py); `unclassified` stands for any exception outside the
hierarchy. -/
inductive PyExc where
  | skipSymbol (msg : String)
  | degradedError (msg : String)
  | fatalError (msg : String)
  | contractViolation (msg : String)
  | mdeOther (msg : String)
  | unclassified (msg : String)
deriving DecidableEq, Repr

/-- Whether the exception is a `MarketDecisionEngineError` (any classified
kind). -/
def PyExc.isMDE : PyExc → Bool
  | .unclassified _ => false
  | _ => true

/-- The exception's message (`str(e)`). -/
def PyExc.msg : PyExc → String
  | .skipSymbol m => m
  | .degradedError m => m
  | .fatalError m => m
  | .contractViolation m => m
  | .mdeOther m => m
  | .unclassified m => m

/-- Schema `RunContext` (schemas/market.py): market, as-of date, run id. -/
structure RunContext where
  market : String
  asof : String
  run_id : String
deriving DecidableEq, Repr

/-- Schema `UserPolicy` (schemas/policy.py), with its declared defaults. -/
structure UserPolicy where
  base_currency : String
  equity : ℚ
  risk_per_trade : ℚ := 1 / 100
  max_positions : ℤ := 10
  max_candidates : ℤ := 30
  commission_rate : ℚ := 0
  slippage_rate : ℚ := 0
deriving DecidableEq, Repr

/-- Schema `PolicySnapshot` (schemas/policy.py). -/
structure PolicySnapshot where
  asof : String
  policy : UserPolicy
deriving DecidableEq, Repr

/-- A diagnostic note value: the pipeline stores symbol counts, strings and
string lists under `notes`. -/
inductive NoteVal where
  | num (n : Nat)
  | str (s : String)
  | strList (l : List String)
deriving DecidableEq, Repr

/-- Pipeline execution context `EngineContext` (pipeline/context.py):
immutable; every update builds a new value. -/
structure EngineContext where
  run : RunContext
  policy : PolicySnapshot
  config : List (String × String) := []
  degraded : Bool := false
  notes : List (String × NoteVal) := []
deriving DecidableEq, Repr

/-- Embedding of `_ctx_with_note`: a copy with one note set. -/
def ctx_with_note (ctx : EngineContext) (key : String) (value : NoteVal) : EngineContext :=
  { ctx with notes := ainsert key value ctx.notes }

/-- Embedding of `_ctx_mark_degraded`: a copy with the degraded flag raised
and the reason appended to the `degraded_reasons` note. -/
def ctx_mark_degraded (ctx : EngineContext) (reason : String) : EngineContext :=
  let reasons :=
    match alookup "degraded_reasons" ctx.notes with
    | some (.strList l) => l
    | _ => []
  { ctx with
    degraded := true
    notes := ainsert "degraded_reasons" (.strList (reasons ++ [reason])) ctx.notes }

/-- One diagnostic update of a context: the only two context transformations
`run` performs. -/
def CtxStep (c c' : EngineContext) : Prop :=
  (∃ k v, c' = ctx_with_note c k v) ∨ ∃ r, c' = ctx_mark_degraded c r

/-- The per-symbol feature payload stored by stage 2
(`{"ohlcv": clean, "daily": daily_feat}`). -/
structure SymFeat (Clean Daily : Type) where
  ohlcv : Clean
  daily : Daily
deriving DecidableEq, Repr

/-- Schema `DecisionPack` (schemas/decision.py), generic in the decision
payload the decision service produces. -/
structure DecisionPack (Dec : Type) where
  market : String
  asof : String
  run_id : String
  decisions : List Dec
deriving DecidableEq, Repr

/-- The injected service functions of `PipelineServices` (pipeline/eod.py).
The loader/preprocess/feature/decision/report payload types are `Any` in the
source and are type parameters here; a service models `raise` by returning
`Except.error`. -/
structure PipelineServices (Raw Clean Daily Dec Rep : Type) where
  build_universe : EngineContext → Except PyExc (List String)
  load_ohlcv : EngineContext → String → Except PyExc Raw
  preprocess_ohlcv : EngineContext → String → Raw → Except PyExc Clean
  build_daily_features : EngineContext → String → Clean → Except PyExc Daily
  select_candidates :
    Option (EngineContext → List (String × SymFeat Clean Daily) → Except PyExc (List String)) := none
  rank_candidates :
    Option (EngineContext → List (String × SymFeat Clean Daily) → List String →
      Except PyExc (List String)) := none
  decide_for_symbol : EngineContext → String → SymFeat Clean Daily → Except PyExc Dec
  build_report : EngineContext → DecisionPack Dec → List String → Except PyExc Rep

variable {Raw Clean Daily Dec Rep : Type}

/-- The body of one stage-2 iteration before exception handling:
`load -> preprocess -> build_daily_features`. -/
def featureChain (S : PipelineServices Raw Clean Daily Dec Rep)
    (ctx : EngineContext) (sym : String) : Except PyExc (SymFeat Clean Daily) := do
  let raw ← S.load_ohlcv ctx sym
  let clean ← S.preprocess_ohlcv ctx sym raw
  let daily ← S.build_daily_features ctx sym clean
  .ok { ohlcv := clean, daily := daily }

/-- Accumulator of the stage-2 loop: the per-symbol feature dict, the skipped
list, and the local `degraded_reasons` list. -/
structure FeatState (Clean Daily : Type) where
  per_symbol : List (String × SymFeat Clean Daily)
  skipped : List String
  degraded_reasons : List String
deriving DecidableEq, Repr

/-- One stage-2 iteration with the source's exception handling: `SkipSymbol`
skips the symbol; `DegradedError` records the reason and skips the symbol;
any other classified error re-raises; an unclassified exception is promoted
to `FatalError`. -/
def featureStep (S : PipelineServices Raw Clean Daily Dec Rep) (ctx : EngineContext)
    (st : FeatState Clean Daily) (sym : String) : Except PyExc (FeatState Clean Daily) :=
  match featureChain S ctx sym with
  | .ok v => .ok { st with per_symbol := ainsert sym v st.per_symbol }
  | .error (.skipSymbol _) => .ok { st with skipped := st.skipped ++ [sym] }
  | .error (.degradedError m) =>
      .ok { st with
        degraded_reasons := st.degraded_reasons ++ [m]
        skipped := st.skipped ++ [sym] }
  | .error e =>
      if e.isMDE then .error e
      else .error (.fatalError ("Unhandled exception in feature stage: " ++ e.msg))

/-- The stage-2 loop over the universe (the context is not modified inside
the loop). -/
def featureStage (S : PipelineServices Raw Clean Daily Dec Rep) (ctx : EngineContext)
    (init : FeatState Clean Daily) (symbols : List String) :
    Except PyExc (FeatState Clean Daily) :=
  symbols.foldlM (featureStep S ctx) init

/-- The context updates applied between stage 2 and stage 3: the degraded
mark when any symbol degraded, then the `skipped_symbols` and
`feature_ready_symbols` notes. -/
def ctxAfterFeatures (ctx : EngineContext) (st : FeatState Clean Daily) : EngineContext :=
  let c := if st.degraded_reasons ≠ [] then ctx_mark_degraded ctx "feature_stage_degraded" else ctx
  ctx_with_note (ctx_with_note c "skipped_symbols" (.strList st.skipped))
    "feature_ready_symbols" (.num st.per_symbol.length)

/-- Stage 3: candidate selection and ranking; with no selector every
surviving symbol is a candidate. -/
def candidateStage (S : PipelineServices Raw Clean Daily Dec Rep) (ctx : EngineContext)
    (per_symbol : List (String × SymFeat Clean Daily)) : Except PyExc (List String) := do
  let cands ←
    match S.select_candidates with
    | none => Except.ok (akeys per_symbol)
    | some sel => sel ctx per_symbol
  match S.rank_candidates with
  | none => Except.ok cands
  | some rk => rk ctx per_symbol cands

/-- Accumulator of the stage-4 loop: the context (which the loop itself may
mark degraded), the decisions, and the shared skipped list. -/
structure DecState (Dec : Type) where
  ctx : EngineContext
  decisions : List Dec
  skipped : List String
deriving DecidableEq, Repr

/-- One stage-4 iteration: a candidate absent from the feature map is a
`ContractViolation`; otherwise `decide_for_symbol` runs under the same
skip/degraded isolation policy as stage 2, except that a degraded reason is
recorded on the context immediately. -/
def decisionStep (S : PipelineServices Raw Clean Daily Dec Rep)
    (per_symbol : List (String × SymFeat Clean Daily))
    (st : DecState Dec) (sym : String) : Except PyExc (DecState Dec) :=
  match alookup sym per_symbol with
  | none => .error (.contractViolation "Candidate symbol not found in per_symbol feature map.")
  | some feat =>
      match S.decide_for_symbol st.ctx sym feat with
      | .ok d => .ok { st with decisions := st.decisions ++ [d] }
      | .error (.skipSymbol _) => .ok { st with skipped := st.skipped ++ [sym] }
      | .error (.degradedError m) =>
          .ok { st with
            ctx := ctx_mark_degraded st.ctx ("decision_stage_degraded: " ++ m)
            skipped := st.skipped ++ [sym] }
      | .error e =>
          if e.isMDE then .error e
          else .error (.fatalError ("Unhandled exception in decision stage: " ++ e.msg))

/-- The stage-4 loop over the candidates. -/
def decisionStage (S : PipelineServices Raw Clean Daily Dec Rep)
    (per_symbol : List (String × SymFeat Clean Daily))
    (init : DecState Dec) (candidates : List String) : Except PyExc (DecState Dec) :=
  candidates.foldlM (decisionStep S per_symbol) init

/-- Embedding of `run` (pipeline/eod.py) up to report building: universe,
per-symbol features, selection/ranking, decisions, pack assembly.  Returns
the final context, the pack and the skipped list. -/
def runCore (ctx : EngineContext) (S : PipelineServices Raw Clean Daily Dec Rep) :
    Except PyExc (EngineContext × DecisionPack Dec × List String) := do
  let symbols ← S.build_universe ctx
  if symbols = [] then .error (.fatalError "Universe is empty.")
  else do
    let ctx1 := ctx_with_note ctx "universe_size" (.num symbols.length)
    let st ← featureStage S ctx1 ⟨[], [], []⟩ symbols
    let ctx2 := ctxAfterFeatures ctx1 st
    if st.per_symbol.isEmpty then
      .error (.fatalError "No symbols available after preprocessing/feature generation.")
    else do
      let candidate_symbols ← candidateStage S ctx2 st.per_symbol
      if candidate_symbols = [] then .error (.fatalError "Candidate list is empty.")
      else do
        let ctx3 := ctx_with_note ctx2 "candidate_size" (.num candidate_symbols.length)
        let dst ← decisionStage S st.per_symbol ⟨ctx3, [], st.skipped⟩ candidate_symbols
        let pack : DecisionPack Dec :=
          { market := ctx.run.market
            asof := ctx.run.asof
            run_id := ctx.run.run_id
            decisions := dst.decisions }
        .ok (dst.ctx, pack, dst.skipped)

/-- Embedding of the public entry point `run`: the core pipeline followed by
the external report builder; any error aborts without a report. -/
def run (ctx : EngineContext) (S : PipelineServices Raw Clean Daily Dec Rep) :
    Except PyExc Rep := do
  let r ← runCore ctx S
  S.build_report r.1 r.2.1 r.2.2

/-- A concrete two-rows-one-date frame: the second row overwrites the first
row's date entry, a third row holds a distinct date. -/
def c10row1 : OhlcvRow :=
  { date := "2024-01-02", open_ := 10, high := 11, low := 9, close := 10, volume := 100 }

/-- The later duplicate of `c10row1`'s date. -/
def c10row2 : OhlcvRow :=
  { date := "2024-01-02", open_ := 10, high := 13, low := 9, close := 12, volume := 150 }

/-- A row with a distinct date. -/
def c10row3 : OhlcvRow :=
  { date := "2024-01-03", open_ := 12, high := 12, low := 10, close := 11, volume := 120 }

/-- The duplicate-date frame. -/
def c10rows : List OhlcvRow := [c10row1, c10row2, c10row3]

/-- The by-date map the duplicate-date frame produces. -/
def c10map : List (String × OhlcvDaily) :=
  [("2024-01-02", ohlcvOfRow c10row2), ("2024-01-03", ohlcvOfRow c10row3)]

/-- A `NO` decision carrying all execution fields, mirroring the record the
active branch of `_build_decision_core_for_day` constructs
(`buy_signal=NO, entry=hh_20, ..., position_size=0.0`). -/
def noWithFields : DecisionCore :=
  { buy_signal := BuySignal.NO
    entry := some 10
    stop := some 9
    target_2r := some 12
    target_3r := some 13
    position_size := some 0
    max_loss := some 0
    time_stop_days := 40
    plan_score := 0
    rank := 1
    plan_args := [("date", "2024-01-02"), ("status", "active")]
    policy_snapshot_id := "abcdefabcdef"
    warnings := [] }

/-- An active (`YES`) decision whose 2R target exceeds its 3R target: both
lower-bound checks of the validator pass while the chain
`target_2r < target_3r` fails. -/
def yesUnordered : DecisionCore :=
  { buy_signal := BuySignal.YES
    entry := some 10
    stop := some 9
    target_2r := some 20
    target_3r := some 13
    position_size := some 1
    max_loss := some 1
    time_stop_days := 40
    plan_score := 0
    rank := 1
    plan_args := []
    policy_snapshot_id := "abcdefabcdef"
    warnings := [] }

/-- A well-formed active decision. -/
def yesGood : DecisionCore :=
  { buy_signal := BuySignal.YES
    entry := some 10
    stop := some 9
    target_2r := some 12
    target_3r := some 13
    position_size := some 5
    max_loss := some 5
    time_stop_days := 40
    plan_score := 0
    rank := 1
    plan_args := []
    policy_snapshot_id := "abcdefabcdef"
    warnings := [] }

/-- A concrete policy snapshot for the examples. -/
def examplePolicy : UserPolicySnapshot :=
  { account := { equity := 1000000 }
    constraints := { market := Market.JP, lot_size := 100 } }

/-- An indicator set with an active breakout structure. -/
def exIndActive : IndicatorsDaily := { hh_20 := some 11, ll_20 := some 9 }

/-- A one-day OHLCV map for the decision-builder example. -/
def exOhlcvMap : List (String × OhlcvDaily) := [("2024-01-02", ohlcvOfRow c10row1)]

/-- The matching indicators map. -/
def exIndMap : List (String × IndicatorsDaily) := [("2024-01-02", exIndActive)]


/-- A 15-day strictly increasing frame: every daily delta is +1, so from
position 14 on the 14-period average loss is 0 while the average gain is 1. -/
def rsiRows : List OhlcvRow :=
  (List.range 15).map (fun i =>
    { date := "2024-01-" ++ toString (i + 1)
      open_ := (i : ℚ) + 1
      high := (i : ℚ) + 2
      low := (i : ℚ)
      close := (i : ℚ) + 1
      volume := 1 })


/-- The validated indicator set of `rsiRows` at position 0: every windowed or
shift-based field is missing; only the fields defined from the first row on
(EMAs, MACD family, candle geometry, OBV) are numeric. -/
def c6ind : IndicatorsDaily :=
  { ema_20 := some 1
    ema_50 := some 1
    macd := some 0
    macd_signal := some 0
    macd_hist := some 0
    true_range := some 2
    hl_range := some 2
    body := some 0
    upper_wick := some 1
    lower_wick := some 1
    obv := some 0 }


/-- A concrete engine context for the pipeline examples. -/
def ctx0 : EngineContext :=
  { run := { market := "JP", asof := "2024-01-05", run_id := "r1" }
    policy := { asof := "2024-01-05", policy := { base_currency := "JPY", equity := 1000000 } } }

/-- A complete service set whose every stage succeeds on the one-symbol
universe `["A"]`. -/
def svcOkBase : PipelineServices Unit Unit Unit Unit Unit :=
  { build_universe := fun _ => .ok ["A"]
    load_ohlcv := fun _ _ => .ok ()
    preprocess_ohlcv := fun _ _ _ => .ok ()
    build_daily_features := fun _ _ _ => .ok ()
    decide_for_symbol := fun _ _ _ => .ok ()
    build_report := fun _ _ _ => .ok () }

/-- Services whose universe provider raises an unclassified exception. -/
def svcUniverseUnclassified : PipelineServices Unit Unit Unit Unit Unit :=
  { svcOkBase with build_universe := fun _ => .error (.unclassified "boom") }

/-- Services whose loader raises an unclassified exception during stage 2. -/
def svcFeatureUnclassified : PipelineServices Unit Unit Unit Unit Unit :=
  { svcOkBase with load_ohlcv := fun _ _ => .error (.unclassified "boom") }

/-- Services returning an empty universe. -/
def svcEmptyUniverse : PipelineServices Unit Unit Unit Unit Unit :=
  { svcOkBase with build_universe := fun _ => .ok [] }

/-- Services whose only symbol is skipped during stage 2, leaving the
post-feature symbol set empty. -/
def svcAllSkipped : PipelineServices Unit Unit Unit Unit Unit :=
  { svcOkBase with load_ohlcv := fun _ _ => .error (.skipSymbol "no data") }

/-- Services whose selector returns an empty candidate list. -/
def svcEmptyCandidates : PipelineServices Unit Unit Unit Unit Unit :=
  { svcOkBase with select_candidates := some (fun _ _ => .ok []) }

/-- Services whose selector returns a candidate absent from the feature map. -/
def svcGhostCandidate : PipelineServices Unit Unit Unit Unit Unit :=
  { svcOkBase with select_candidates := some (fun _ _ => .ok ["B"]) }

/-- The final context of the all-ok run from `ctx0`. -/
def c9final : EngineContext :=
  { run := ctx0.run
    policy := ctx0.policy
    config := []
    degraded := false
    notes := [("universe_size", .num 1), ("skipped_symbols", .strList []),
      ("feature_ready_symbols", .num 1), ("candidate_size", .num 1)] }

/-- The decision pack of the all-ok run from `ctx0`. -/
def c9pack : DecisionPack Unit :=
  { market := "JP", asof := "2024-01-05", run_id := "r1", decisions := [()] }


/-- Equality of contexts up to diagnostics: same run metadata, policy and
resolved configuration; the degraded flag and the notes may differ.  The
decision service is a pure function of these non-diagnostic parts. -/
def diagEq (c₁ c₂ : EngineContext) : Prop :=
  c₁.run = c₂.run ∧ c₁.policy = c₂.policy ∧ c₁.config = c₂.config


/-- Stage-2 services that skip exactly symbol "B". -/
def svcSkipB : PipelineServices Unit Unit Unit Unit Unit :=
  { svcOkBase with load_ohlcv := fun _ sym =>
      if sym = "B" then .error (.skipSymbol "no data") else .ok () }

/-- Stage-2 services that degrade exactly symbol "B". -/
def svcDegradeB : PipelineServices Unit Unit Unit Unit Unit :=
  { svcOkBase with load_ohlcv := fun _ sym =>
      if sym = "B" then .error (.degradedError "bad data quality") else .ok () }

/-- Stage-4 services that skip exactly symbol "B". -/
def svcDecideSkipB : PipelineServices Unit Unit Unit Unit Unit :=
  { svcOkBase with decide_for_symbol := fun _ sym _ =>
      if sym = "B" then .error (.skipSymbol "no structure") else .ok () }

/-- Stage-4 services that degrade exactly symbol "B". -/
def svcDecideDegradeB : PipelineServices Unit Unit Unit Unit Unit :=
  { svcOkBase with decide_for_symbol := fun _ sym _ =>
      if sym = "B" then .error (.degradedError "llm down") else .ok () }

/-- A three-symbol feature map. -/
def psABC : List (String × SymFeat Unit Unit) :=
  [("A", ⟨(), ()⟩), ("B", ⟨(), ()⟩), ("C", ⟨(), ()⟩)]

/-- Stage-2 state after processing only "A". -/
def c4stA : FeatState Unit Unit := ⟨[("A", ⟨(), ()⟩)], [], []⟩

/-- Stage-2 state after processing "A" then "C". -/
def c4stAC : FeatState Unit Unit := ⟨[("A", ⟨(), ()⟩), ("C", ⟨(), ()⟩)], [], []⟩

/-- Stage-4 state after deciding only "A". -/
def c4dstA : DecState Unit := ⟨ctx0, [()], []⟩

/-- Stage-4 state after deciding "A" then "C". -/
def c4dstAC : DecState Unit := ⟨ctx0, [(), ()], []⟩

end MDE

namespace MDE

open PyFloat

theorem alookup_ainsert_self {α : Type} (k : String) (v : α) (m : List (String × α)) :
    alookup k (ainsert k v m) = some v := by
  induction m with
  | nil => simp [ainsert, alookup]
  | cons hd tl ih =>
      obtain ⟨k', v'⟩ := hd
      by_cases h : k' = k
      · simp [ainsert, alookup, h]
      · simp [ainsert, alookup, h, ih]

theorem alookup_ainsert_ne {α : Type} (k k₀ : String) (v : α) (m : List (String × α))
    (h : k ≠ k₀) : alookup k₀ (ainsert k v m) = alookup k₀ m := by
  induction m with
  | nil => simp [ainsert, alookup, h]
  | cons hd tl ih =>
      obtain ⟨k', v'⟩ := hd
      by_cases hk : k' = k
      · subst hk
        simp [ainsert, alookup, h]
      · by_cases hk0 : k' = k₀
        · subst hk0
          have : ¬k' = k := hk
          simp [ainsert, alookup, this]
        · simp [ainsert, alookup, hk, hk0, ih]

theorem akeys_ainsert {α : Type} (k : String) (v : α) (m : List (String × α)) :
    akeys (ainsert k v m) = if k ∈ akeys m then akeys m else akeys m ++ [k] := by
  induction m with
  | nil => simp [ainsert, akeys]
  | cons hd tl ih =>
      obtain ⟨k', v'⟩ := hd
      by_cases h : k' = k
      · subst h
        simp [ainsert, akeys]
      · have hne : ¬k = k' := fun hh => h hh.symm
        by_cases hmem : k ∈ akeys tl <;>
          simp [ainsert, akeys, h, hne, hmem] at ih ⊢ <;>
          simp [akeys] at hmem <;> simp [hmem, ih, hne]

theorem alookup_isSome_iff_mem_akeys {α : Type} (k : String) (m : List (String × α)) :
    (alookup k m).isSome = true ↔ k ∈ akeys m := by
  induction m with
  | nil => simp [alookup, akeys]
  | cons hd tl ih =>
      obtain ⟨k', v'⟩ := hd
      by_cases h : k' = k
      · subst h
        simp [alookup, akeys]
      · have hne : ¬k = k' := fun hh => h hh.symm
        simp [alookup, akeys, h, hne, ih]

theorem akeys_ainsert_nodup {α : Type} {k : String} {v : α} {m : List (String × α)}
    (h : (akeys m).Nodup) : (akeys (ainsert k v m)).Nodup := by
  rw [akeys_ainsert]
  by_cases hk : k ∈ akeys m
  · simpa [hk] using h
  · simp only [hk, if_false]
    rw [List.nodup_append]
    exact ⟨h, List.nodup_singleton k, by simpa [List.disjoint_singleton] using hk⟩

theorem frame_fold_lookup (rows : List OhlcvRow) (acc m : List (String × OhlcvDaily))
    (d : String)
    (h : rows.foldlM
      (fun by_date row => do
        let daily ← OhlcvDaily.model_validate row
        Except.ok (ainsert (rowDateKey row) daily by_date)) acc = .ok m) :
    alookup d m =
      match (rows.filter (fun r => rowDateKey r == d)).getLast? with
      | some r => some (ohlcvOfRow r)
      | none => alookup d acc := by
  induction rows using List.reverseRecOn generalizing m with
  | nil =>
      simp [List.foldlM, pure, Except.pure] at h
      subst h
      simp
  | append_singleton l r ih =>
      rw [List.foldlM_append] at h
      cases hl : l.foldlM
          (fun by_date row => do
            let daily ← OhlcvDaily.model_validate row
            Except.ok (ainsert (rowDateKey row) daily by_date)) acc with
      | error e => rw [hl] at h; simp [Bind.bind, Except.bind] at h
      | ok m' =>
          rw [hl] at h
          simp only [Bind.bind, Except.bind, List.foldlM_cons, List.foldlM_nil] at h
          cases hv : OhlcvDaily.model_validate r with
          | error e => simp [hv, Bind.bind, Except.bind] at h
          | ok daily =>
              simp only [hv, Bind.bind, Except.bind] at h
              have hdaily : daily = ohlcvOfRow r := by
                revert hv
                unfold OhlcvDaily.model_validate
                split <;> intro hv <;> simp_all
              subst hdaily
              replace h : ainsert (rowDateKey r) (ohlcvOfRow r) m' = m := Except.ok.inj h
              subst h
              by_cases hd : rowDateKey r = d
              · subst hd
                rw [List.filter_append]
                simp only [List.filter_cons, List.filter_nil, beq_self_eq_true,
                  if_true, List.getLast?_concat]
                exact alookup_ainsert_self _ _ _
              · rw [List.filter_append]
                have hne : (rowDateKey r == d) = false := by simp [hd]
                simp only [List.filter_cons, List.filter_nil, hne, List.append_nil,
                  Bool.false_eq_true, if_false]
                rw [alookup_ainsert_ne _ _ _ _ hd]
                exact ih m' hl

theorem frame_fold_nodup (rows : List OhlcvRow) (acc m : List (String × OhlcvDaily))
    (hacc : (akeys acc).Nodup)
    (h : rows.foldlM
      (fun by_date row => do
        let daily ← OhlcvDaily.model_validate row
        Except.ok (ainsert (rowDateKey row) daily by_date)) acc = .ok m) :
    (akeys m).Nodup := by
  induction rows generalizing acc with
  | nil =>
      simp [List.foldlM, pure, Except.pure] at h
      subst h
      exact hacc
  | cons r rows ih =>
      rw [List.foldlM_cons] at h
      cases hv : OhlcvDaily.model_validate r with
      | error e => simp [hv, Bind.bind, Except.bind] at h
      | ok daily =>
          simp only [hv, Bind.bind, Except.bind] at h
          exact ih _ (akeys_ainsert_nodup hacc) h

/-- C10: for every input OHLCV frame on which construction succeeds, each
date key maps to the `OhlcvDaily` built from the LAST frame row bearing that
key (later duplicates silently overwrite earlier ones), the key set has no
duplicates, and a key is present exactly when some row bears it. -/
theorem C10_frame_to_ohlcv_last_duplicate_wins (rows : List OhlcvRow)
    (m : List (String × OhlcvDaily)) (h : frame_to_ohlcv_by_date rows = .ok m) :
    (∀ d : String,
        alookup d m =
          ((rows.filter (fun r => rowDateKey r == d)).getLast?).map ohlcvOfRow) ∧
    (akeys m).Nodup ∧
    (∀ d : String, d ∈ akeys m ↔ ∃ r ∈ rows, rowDateKey r = d) := by
  unfold frame_to_ohlcv_by_date at h
  refine ⟨fun d => ?_, frame_fold_nodup rows [] m (by simp [akeys]) h, fun d => ?_⟩
  · have hx := frame_fold_lookup rows [] m d h
    cases hfl : (rows.filter (fun r => rowDateKey r == d)).getLast? <;>
      simp [hfl, alookup] at hx ⊢ <;> exact hx
  · have hx := frame_fold_lookup rows [] m d h
    rw [← alookup_isSome_iff_mem_akeys]
    constructor
    · intro hs
      cases hfl : (rows.filter (fun r => rowDateKey r == d)).getLast? with
      | none => rw [hfl] at hx; simp [alookup] at hx; rw [hx] at hs; simp at hs
      | some r =>
          have hr : r ∈ rows.filter (fun r => rowDateKey r == d) := by
            have hmem : r ∈ (rows.filter (fun r => rowDateKey r == d)).getLast? := by
              rw [Option.mem_def, hfl]
            obtain ⟨hne, heq⟩ := List.mem_getLast?_eq_getLast hmem
            rw [heq]
            exact List.getLast_mem hne
          rw [List.mem_filter] at hr
          exact ⟨r, hr.1, by simpa using hr.2⟩
    · rintro ⟨r, hr, hkey⟩
      cases hfl : (rows.filter (fun r => rowDateKey r == d)).getLast? with
      | none =>
          have : rows.filter (fun r => rowDateKey r == d) = [] :=
            List.getLast?_eq_none_iff.mp hfl
          have hmem : r ∈ rows.filter (fun r => rowDateKey r == d) := by
            rw [List.mem_filter]
            exact ⟨hr, by simp [hkey]⟩
          rw [this] at hmem
          simp at hmem
      | some r₀ => rw [hfl] at hx; simp [hx]


/-- Witness for C10: on the concrete duplicate-date frame the builder
succeeds and the duplicated date maps to the daily bar of the later row. -/
theorem C10_witness :
    frame_to_ohlcv_by_date c10rows = .ok c10map ∧
    alookup "2024-01-02" c10map = some (ohlcvOfRow c10row2) := by
  refine ⟨by rfl, ?_⟩
  have hx := (C10_frame_to_ohlcv_last_duplicate_wins c10rows c10map (by rfl)).1 "2024-01-02"
  rw [hx]
  rfl

/-- C1 counterexample: the claim fails on the code in both directions.  A
`NO` decision with every execution field present (exactly the record the
active branch of `_build_decision_core_for_day` emits) passes construction,
refuting "if buy_signal is NO then all execution fields are absent"; and an
active decision with `target_2r = 20 > target_3r = 13` passes construction,
refuting `entry < target_2r < target_3r`. -/
theorem C1_counterexample :
    (DecisionCore.construct noWithFields = .ok noWithFields ∧
      noWithFields.buy_signal = BuySignal.NO ∧
      noWithFields.entry = some 10 ∧ noWithFields.position_size = some 0) ∧
    (DecisionCore.construct yesUnordered = .ok yesUnordered ∧
      yesUnordered.buy_signal = BuySignal.YES ∧
      yesUnordered.target_2r = some 20 ∧ yesUnordered.target_3r = some 13 ∧
      ¬ (20 : ℚ) < 13) := by
  have h1 : DecisionCore.construct noWithFields = .ok noWithFields := by
    norm_num [DecisionCore.construct, DecisionCore.fieldConstraintsOk,
      DecisionCore.validate_structure, nonNegOk, noWithFields]
    all_goals decide
  have h2 : DecisionCore.construct yesUnordered = .ok yesUnordered := by
    norm_num [DecisionCore.construct, DecisionCore.fieldConstraintsOk,
      DecisionCore.validate_structure, nonNegOk, yesUnordered]
    all_goals decide
  exact ⟨⟨h1, rfl, rfl, rfl⟩, ⟨h2, rfl, rfl, rfl, by norm_num⟩⟩

/-- C1 (amended): every successfully constructed `DecisionCore` with
`buy_signal` distinct from `NO` has all six execution fields present with
`stop < entry`, `target_2r >= entry + 2*(entry-stop)`,
`target_3r >= entry + 3*(entry-stop)` (hence `entry < target_2r` and
`entry < target_3r`), `position_size > 0` and `max_loss >= 0`; a `NO`
decision is unconstrained (its execution fields may be present or absent). -/
theorem C1_decision_core_invariants (d e : DecisionCore)
    (h : DecisionCore.construct d = .ok e) :
    e = d ∧
    (e.buy_signal ≠ BuySignal.NO →
      ∃ entry stop t2 t3 ps ml,
        e.entry = some entry ∧ e.stop = some stop ∧ e.target_2r = some t2 ∧
        e.target_3r = some t3 ∧ e.position_size = some ps ∧ e.max_loss = some ml ∧
        stop < entry ∧ entry + 2 * (entry - stop) ≤ t2 ∧
        entry + 3 * (entry - stop) ≤ t3 ∧ entry < t2 ∧ entry < t3 ∧
        0 < ps ∧ 0 ≤ ml) := by
  unfold DecisionCore.construct at h
  by_cases hfc : d.fieldConstraintsOk
  swap
  · simp [hfc] at h
  simp only [hfc, if_true] at h
  unfold DecisionCore.validate_structure at h
  by_cases hno : d.buy_signal = BuySignal.NO
  · rw [if_pos hno] at h
    replace h : d = e := Except.ok.inj h
    subst h
    exact ⟨rfl, fun hne => absurd hno hne⟩
  · rw [if_neg hno] at h
    cases hent : d.entry with
    | none => rw [hent] at h; simp at h
    | some entry =>
    cases hstop : d.stop with
    | none => rw [hent, hstop] at h; simp at h
    | some stop =>
    cases ht2 : d.target_2r with
    | none => rw [hent, hstop, ht2] at h; simp at h
    | some t2 =>
    cases ht3 : d.target_3r with
    | none => rw [hent, hstop, ht2, ht3] at h; simp at h
    | some t3 =>
    cases hps : d.position_size with
    | none => rw [hent, hstop, ht2, ht3, hps] at h; simp at h
    | some ps =>
    cases hml : d.max_loss with
    | none => rw [hent, hstop, ht2, ht3, hps, hml] at h; simp at h
    | some ml =>
    rw [hent, hstop, ht2, ht3, hps, hml] at h
    simp only [] at h
    by_cases h1 : entry ≤ stop
    · simp [h1] at h
    by_cases h2 : t2 < entry + 2 * (entry - stop)
    · simp [h1, h2] at h
    by_cases h3 : t3 < entry + 3 * (entry - stop)
    · simp [h1, h2, h3] at h
    by_cases h4 : ps ≤ 0
    · simp [h1, h2, h3, h4] at h
    simp only [h1, h2, h3, h4, if_false] at h
    replace h : d = e := Except.ok.inj h
    subst h
    have hml0 : 0 ≤ ml := by
      have hcopy := hfc
      unfold DecisionCore.fieldConstraintsOk at hcopy
      rw [hml] at hcopy
      simp only [Bool.and_eq_true, nonNegOk, decide_eq_true_eq] at hcopy
      exact hcopy.1.1.1.2
    refine ⟨rfl, fun _ => ⟨entry, stop, t2, t3, ps, ml,
      hent, hstop, ht2, ht3, hps, hml, by linarith, by linarith, by linarith,
      by linarith, by linarith, by linarith, hml0⟩⟩

/-- Witness for C1: the amended invariant at a concrete well-formed active
decision. -/
theorem C1_witness :
    DecisionCore.construct yesGood = .ok yesGood ∧
    (yesGood = yesGood ∧
      (yesGood.buy_signal ≠ BuySignal.NO →
        ∃ entry stop t2 t3 ps ml,
          yesGood.entry = some entry ∧ yesGood.stop = some stop ∧
          yesGood.target_2r = some t2 ∧ yesGood.target_3r = some t3 ∧
          yesGood.position_size = some ps ∧ yesGood.max_loss = some ml ∧
          stop < entry ∧ entry + 2 * (entry - stop) ≤ t2 ∧
          entry + 3 * (entry - stop) ≤ t3 ∧ entry < t2 ∧ entry < t3 ∧
          0 < ps ∧ 0 ≤ ml)) := by
  have hcons : DecisionCore.construct yesGood = .ok yesGood := by
    norm_num [DecisionCore.construct, DecisionCore.fieldConstraintsOk,
      DecisionCore.validate_structure, nonNegOk, yesGood]
    all_goals decide
  exact ⟨hcons, C1_decision_core_invariants yesGood yesGood hcons⟩

theorem alookup_foldl_keyed {α : Type} (f : String → α) (keys : List String)
    (d : String) (acc : List (String × α)) :
    alookup d (keys.foldl (fun out k => ainsert k (f k) out) acc) =
      if d ∈ keys then some (f d) else alookup d acc := by
  induction keys generalizing acc with
  | nil => simp
  | cons k keys ih =>
      simp only [List.foldl_cons, List.mem_cons]
      rw [ih]
      by_cases hd : d ∈ keys
      · simp [hd]
      · by_cases hk : d = k
        · subst hk
          simp [hd, alookup_ainsert_self]
        · have hk2 : ¬ k = d := fun hh => hk hh.symm
          simp [hd, hk, alookup_ainsert_ne k d (f k) acc hk2]

theorem akeys_foldl_ainsert_nodup {α : Type} (f : String → α) (keys : List String)
    (acc : List (String × α)) (hacc : (akeys acc).Nodup) :
    (akeys (keys.foldl (fun out k => ainsert k (f k) out) acc)).Nodup := by
  induction keys generalizing acc with
  | nil => simpa
  | cons k keys ih => exact ih _ (akeys_ainsert_nodup hacc)

/-- C2: `build_decision_core_by_date` yields exactly one decision per date
key of the OHLCV map (key set deduplicated, lookup defined exactly on those
keys), each computed by `_build_decision_core_for_day` from that date's
indicators (a bare `IndicatorsDaily()` when absent); the per-day rule: active
iff `hh_20` and `ll_20` are present with `hh_20 > ll_20`, in which case
`entry = hh_20`, `stop = ll_20`, `target_2r = entry + 2*(entry-stop)`,
`target_3r = entry + 3*(entry-stop)`; otherwise the decision is `NO` with
absent execution price fields and warnings `["insufficient_indicators"]`. -/
theorem C2_build_decision_core_by_date (ohlcv_by_date : List (String × OhlcvDaily))
    (indicators_by_date : List (String × IndicatorsDaily)) (policy : UserPolicySnapshot) :
    (akeys (build_decision_core_by_date ohlcv_by_date indicators_by_date policy)).Nodup ∧
    (∀ d : String,
      alookup d (build_decision_core_by_date ohlcv_by_date indicators_by_date policy) =
        if d ∈ akeys ohlcv_by_date then
          some (build_decision_core_for_day d
            ((alookup d indicators_by_date).getD {}) policy (policy_snapshot_id policy))
        else none) ∧
    (∀ (dk : String) (ind : IndicatorsDaily),
      (∀ hh ll, ind.hh_20 = some hh → ind.ll_20 = some ll → ll < hh →
        (build_decision_core_for_day dk ind policy (policy_snapshot_id policy)).entry = some hh ∧
        (build_decision_core_for_day dk ind policy (policy_snapshot_id policy)).stop = some ll ∧
        (build_decision_core_for_day dk ind policy (policy_snapshot_id policy)).target_2r =
          some (hh + 2 * (hh - ll)) ∧
        (build_decision_core_for_day dk ind policy (policy_snapshot_id policy)).target_3r =
          some (hh + 3 * (hh - ll))) ∧
      ((¬ ∃ hh ll, ind.hh_20 = some hh ∧ ind.ll_20 = some ll ∧ ll < hh) →
        (build_decision_core_for_day dk ind policy (policy_snapshot_id policy)).buy_signal =
          BuySignal.NO ∧
        (build_decision_core_for_day dk ind policy (policy_snapshot_id policy)).entry = none ∧
        (build_decision_core_for_day dk ind policy (policy_snapshot_id policy)).stop = none ∧
        (build_decision_core_for_day dk ind policy (policy_snapshot_id policy)).target_2r = none ∧
        (build_decision_core_for_day dk ind policy (policy_snapshot_id policy)).target_3r = none ∧
        (build_decision_core_for_day dk ind policy (policy_snapshot_id policy)).position_size = none ∧
        (build_decision_core_for_day dk ind policy (policy_snapshot_id policy)).max_loss = none ∧
        (build_decision_core_for_day dk ind policy (policy_snapshot_id policy)).warnings =
          ["insufficient_indicators"])) := by
  refine ⟨?_, ?_, ?_⟩
  · unfold build_decision_core_by_date
    exact akeys_foldl_ainsert_nodup _ _ [] (by simp [akeys])
  · intro d
    unfold build_decision_core_by_date
    rw [alookup_foldl_keyed]
    by_cases hd : d ∈ akeys ohlcv_by_date <;> simp [hd, alookup]
  · intro dk ind
    constructor
    · intro hh ll hhh hll hlt
      unfold build_decision_core_for_day
      rw [hhh, hll]
      simp [hlt]
    · intro hinact
      unfold build_decision_core_for_day
      cases hhh : ind.hh_20 with
      | none => simp [inactive_decision_core]
      | some hh =>
          cases hll : ind.ll_20 with
          | none => simp [inactive_decision_core]
          | some ll =>
              have : ¬ ll < hh := fun hlt => hinact ⟨hh, ll, hhh, hll, hlt⟩
              simp [this, inactive_decision_core]

/-- Witness for C2: on a concrete one-day map with an active indicator set
the builder emits the breakout plan with entry 11 and stop 9. -/
theorem C2_witness :
    alookup "2024-01-02" (build_decision_core_by_date exOhlcvMap exIndMap examplePolicy) =
      some (build_decision_core_for_day "2024-01-02" exIndActive examplePolicy
        (policy_snapshot_id examplePolicy)) ∧
    (build_decision_core_for_day "2024-01-02" exIndActive examplePolicy
        (policy_snapshot_id examplePolicy)).entry = some 11 ∧
    (build_decision_core_for_day "2024-01-02" exIndActive examplePolicy
        (policy_snapshot_id examplePolicy)).stop = some 9 := by
  obtain ⟨hnd, hlook, hday⟩ :=
    C2_build_decision_core_by_date exOhlcvMap exIndMap examplePolicy
  have h1 := hlook "2024-01-02"
  have h2 := (hday "2024-01-02" exIndActive).1 11 9 (by rfl) (by rfl) (by norm_num)
  refine ⟨?_, h2.1, h2.2.1⟩
  rw [h1]
  simp [exOhlcvMap, exIndMap, akeys, alookup]


/-- C5: decision derivation is deterministic: equal policies yield equal
canonical serializations and equal content-derived fingerprints, and equal
(OHLCV map, indicators map, policy) inputs yield equal decision maps; no
input beyond these reaches the computation (no randomness, no clock). -/
theorem C5_determinism (ohlcv : List (String × OhlcvDaily))
    (ind : List (String × IndicatorsDaily)) (p₁ p₂ : UserPolicySnapshot)
    (h : p₁ = p₂) :
    policy_snapshot_id p₁ = policy_snapshot_id p₂ ∧
    p₁.model_dump_json = p₂.model_dump_json ∧
    build_decision_core_by_date ohlcv ind p₁ = build_decision_core_by_date ohlcv ind p₂ := by
  subst h
  exact ⟨rfl, rfl, rfl⟩

/-- Witness for C5 at a concrete policy and concrete maps. -/
theorem C5_witness :
    policy_snapshot_id examplePolicy = policy_snapshot_id examplePolicy ∧
    build_decision_core_by_date exOhlcvMap exIndMap examplePolicy =
      build_decision_core_by_date exOhlcvMap exIndMap examplePolicy := by
  have h := C5_determinism exOhlcvMap exIndMap examplePolicy examplePolicy rfl
  exact ⟨h.1, h.2.2⟩

set_option maxRecDepth 100000 in
set_option maxHeartbeats 4000000 in
/-- C7 counterexample: on the strictly increasing 15-day frame the 14-period
average loss at position 14 is 0, yet `rsi_14` is the numeric value 100 (the
IEEE quotient `avg_gain / 0 = +inf` makes `100 - 100/(1+inf) = 100`), and the
constructed `IndicatorsDaily` carries `some 100`, not the missing marker. -/
theorem C7_counterexample :
    avg_loss rsiRows 14 = .fin 0 ∧
    rsi_14 rsiRows 14 = .fin 100 ∧
    (validateIndicators (computeIndicatorsRow rsiRows 14)).map IndicatorsDaily.rsi_14 =
      .ok (some 100) := by
  refine ⟨?_, ?_, ?_⟩
  · norm_num [avg_loss, avg_gain, rsi_14, rsS, rollingMean, window, finVals?,
    List.mapM, List.mapM.loop, lossS, gainS, deltaS, closeS, prev_close, col,
    shiftN, rsiRows, pyClip0, pySub, pyNeg, pyAdd, pyDiv, sanitize, List.range_succ]
  · norm_num [avg_loss, avg_gain, rsi_14, rsS, rollingMean, window, finVals?,
    List.mapM, List.mapM.loop, lossS, gainS, deltaS, closeS, prev_close, col,
    shiftN, rsiRows, pyClip0, pySub, pyNeg, pyAdd, pyDiv, sanitize, List.range_succ]
  · norm_num [validateIndicators, sanitizedIndicators, sanitize, nonNegOk,
    computeIndicatorsRow, ret_1d, ret_5d, ret_20d, logret_1d, vol_20d, atr_14,
    sma_5, sma_20, sma_50, ema_20, ema_50, close_over_sma_20, close_over_sma_50,
    rsi_14, rsS, avg_gain, avg_loss, gainS, lossS, deltaS, stoch_k_14, stoch_d_3,
    hh14, ll14, macd, macd_signal, macd_hist, macdQ, bb_mid_20, bb_std_20,
    bb_upper_20_2, bb_lower_20_2, bb_width_20_2, bb_percent_b_20_2, true_range,
    hl_range, body, upper_wick, lower_wick, gap, gap_pct, v_sma_20, v_ratio_20,
    obv, obvQ, direction, hh_20, ll_20, close_to_hh_20, close_to_ll_20,
    rollingMean, rollingMax, rollingMin, rollingStd, window, finVals?, List.mapM,
    List.mapM.loop, ewmaQ, closeQ, volumeQ, closeS, openS, highS, lowS, volumeS,
    prev_close, ratioS, pyLogWhere, logModel, pctChange, col, shiftN, rsiRows,
    pyClip0, pySub, pyNeg, pyAdd, pyDiv, pyMul, pyAbs, pyMaxSkip, pyMaxSkip3,
    pyMinSkip, pyLt, List.range_succ, Except.map]

/-- C7 (amended): when the 14-period average loss is 0 and the average gain
is `g >= 0`, `rsi_14` is missing only in the 0/0 case `g = 0`; for `g > 0` it
is the numeric value 100. -/
theorem C7_rsi_avg_loss_zero (rows : List OhlcvRow) (i : Nat) (g : ℚ)
    (hL : avg_loss rows i = .fin 0) (hG : avg_gain rows i = .fin g) (hg : 0 ≤ g) :
    rsi_14 rows i = (if g = 0 then PyFloat.nan else .fin 100) ∧
    sanitize (rsi_14 rows i) = (if g = 0 then none else some 100) := by
  unfold rsi_14 rsS
  rw [hL, hG]
  by_cases hz : g = 0
  · subst hz
    simp [pyDiv, pyAdd, pySub, pyNeg, sanitize]
  · have hgpos : 0 < g := lt_of_le_of_ne hg (Ne.symm hz)
    simp [pyDiv, hz, hgpos, not_lt.mpr hg, pyAdd, pySub, pyNeg, sanitize]

set_option maxRecDepth 100000 in
set_option maxHeartbeats 4000000 in
/-- Witness for the amended C7 at the concrete frame (`g = 1`). -/
theorem C7_witness :
    avg_loss rsiRows 14 = .fin 0 ∧ avg_gain rsiRows 14 = .fin 1 ∧
    rsi_14 rsiRows 14 = .fin 100 ∧ sanitize (rsi_14 rsiRows 14) = some 100 := by
  have hL : avg_loss rsiRows 14 = .fin 0 := by
    norm_num [avg_loss, avg_gain, rsi_14, rsS, rollingMean, window, finVals?,
    List.mapM, List.mapM.loop, lossS, gainS, deltaS, closeS, prev_close, col,
    shiftN, rsiRows, pyClip0, pySub, pyNeg, pyAdd, pyDiv, sanitize, List.range_succ]
  have hG : avg_gain rsiRows 14 = .fin 1 := by
    norm_num [avg_loss, avg_gain, rsi_14, rsS, rollingMean, window, finVals?,
    List.mapM, List.mapM.loop, lossS, gainS, deltaS, closeS, prev_close, col,
    shiftN, rsiRows, pyClip0, pySub, pyNeg, pyAdd, pyDiv, sanitize, List.range_succ]
  have h := C7_rsi_avg_loss_zero rsiRows 14 1 hL hG (by norm_num)
  refine ⟨hL, hG, ?_, ?_⟩
  · simpa using h.1
  · simpa using h.2


@[simp] theorem pyNeg_nan : pyNeg .nan = .nan := rfl

@[simp] theorem pyAdd_nan_left (x : PyFloat) : pyAdd .nan x = .nan := by
  cases x <;> rfl

@[simp] theorem pyAdd_nan_right (x : PyFloat) : pyAdd x .nan = .nan := by
  cases x <;> rfl

@[simp] theorem pySub_nan_left (x : PyFloat) : pySub .nan x = .nan := by
  simp [pySub]

@[simp] theorem pySub_nan_right (x : PyFloat) : pySub x .nan = .nan := by
  simp [pySub]

@[simp] theorem pyMul_nan_left (x : PyFloat) : pyMul .nan x = .nan := by
  cases x <;> rfl

@[simp] theorem pyMul_nan_right (x : PyFloat) : pyMul x .nan = .nan := by
  cases x <;> rfl

@[simp] theorem pyDiv_nan_left (x : PyFloat) : pyDiv .nan x = .nan := by
  cases x <;> rfl

@[simp] theorem pyDiv_nan_right (x : PyFloat) : pyDiv x .nan = .nan := by
  cases x <;> rfl

@[simp] theorem pyClip0_nan : pyClip0 .nan = .nan := rfl

@[simp] theorem pyLogWhere_nan : pyLogWhere .nan = .nan := rfl

theorem shiftN_insufficient (n : Nat) (s : Ser) {i : Nat} (h : i < n) :
    shiftN n s i = .nan := by
  simp [shiftN, h]

theorem pctChange_insufficient (n : Nat) (s : Ser) {i : Nat} (h : i < n) :
    pctChange n s i = .nan := by
  simp [pctChange, shiftN_insufficient n s h]

theorem rollingMean_insufficient (N : Nat) (s : Ser) {i : Nat} (h : i + 1 < N) :
    rollingMean N s i = .nan := by
  simp [rollingMean, h]

theorem rollingMax_insufficient (N : Nat) (s : Ser) {i : Nat} (h : i + 1 < N) :
    rollingMax N s i = .nan := by
  simp [rollingMax, h]

theorem rollingMin_insufficient (N : Nat) (s : Ser) {i : Nat} (h : i + 1 < N) :
    rollingMin N s i = .nan := by
  simp [rollingMin, h]

theorem rollingStd_insufficient (N : Nat) (s : Ser) {i : Nat} (h : i + 1 < N) :
    rollingStd N s i = .nan := by
  simp [rollingStd, h]

theorem validateIndicators_ok_eq (r : RawIndicators) (d : IndicatorsDaily)
    (h : validateIndicators r = .ok d) : d = sanitizedIndicators r := by
  simp only [validateIndicators] at h
  split at h
  · exact (Except.ok.inj h).symm
  · simp at h

/-- C6: (i) sanitization never lets a non-finite value through — every
non-finite raw value becomes the missing marker; (ii) every field of a
constructed `IndicatorsDaily` is exactly the sanitization of the computed raw
float; (iii) every rolling-window field of the constructed set is missing on
rows with fewer than `N` observations (the `N`-shift return fields are
likewise missing on the first `n` rows). -/
theorem C6_indicator_sanitization :
    (∀ v : PyFloat, v.isFinite = false → sanitize v = none) ∧
    (∀ (r : RawIndicators) (d : IndicatorsDaily), validateIndicators r = .ok d →
      d.fieldList = r.fieldList.map sanitize) ∧
    (∀ (rows : List OhlcvRow) (i : Nat) (d : IndicatorsDaily),
      validateIndicators (computeIndicatorsRow rows i) = .ok d →
      (i < 1 → d.ret_1d = none ∧ d.logret_1d = none ∧ d.gap = none ∧ d.gap_pct = none) ∧
      (i < 5 → d.ret_5d = none) ∧
      (i < 4 → d.sma_5 = none) ∧
      (i < 2 → d.stoch_d_3 = none) ∧
      (i < 13 → d.atr_14 = none ∧ d.rsi_14 = none ∧ d.stoch_k_14 = none) ∧
      (i < 19 → d.sma_20 = none ∧ d.close_over_sma_20 = none ∧ d.vol_20d = none ∧
        d.bb_mid_20 = none ∧ d.bb_upper_20_2 = none ∧ d.bb_lower_20_2 = none ∧
        d.bb_width_20_2 = none ∧ d.bb_percent_b_20_2 = none ∧ d.v_sma_20 = none ∧
        d.v_ratio_20 = none ∧ d.hh_20 = none ∧ d.ll_20 = none ∧
        d.close_to_hh_20 = none ∧ d.close_to_ll_20 = none) ∧
      (i < 20 → d.ret_20d = none) ∧
      (i < 49 → d.sma_50 = none ∧ d.close_over_sma_50 = none)) := by
  refine ⟨?_, ?_, ?_⟩
  · intro v hv
    cases v <;> simp_all [sanitize, PyFloat.isFinite]
  · intro r d h
    have hd := validateIndicators_ok_eq r d h
    subst hd
    simp [IndicatorsDaily.fieldList, RawIndicators.fieldList, sanitizedIndicators]
  · intro rows i d h
    have hd := validateIndicators_ok_eq _ _ h
    subst hd
    refine ⟨?_, ?_, ?_, ?_, ?_, ?_, ?_, ?_⟩ <;> intro hi
    · refine ⟨?_, ?_, ?_, ?_⟩ <;>
        simp [sanitizedIndicators, computeIndicatorsRow, sanitize, ret_1d, logret_1d,
          ratioS, prev_close, gap, gap_pct, pctChange_insufficient 1 _ hi,
          shiftN_insufficient 1 _ hi]
    · simp [sanitizedIndicators, computeIndicatorsRow, sanitize, ret_5d,
        pctChange_insufficient 5 _ hi]
    · have h5 : i + 1 < 5 := by omega
      simp [sanitizedIndicators, computeIndicatorsRow, sanitize, sma_5,
        rollingMean_insufficient 5 _ h5]
    · have h3 : i + 1 < 3 := by omega
      simp [sanitizedIndicators, computeIndicatorsRow, sanitize, stoch_d_3,
        rollingMean_insufficient 3 _ h3]
    · have h14 : i + 1 < 14 := by omega
      refine ⟨?_, ?_, ?_⟩ <;>
        simp [sanitizedIndicators, computeIndicatorsRow, sanitize, atr_14, rsi_14,
          rsS, avg_gain, avg_loss, stoch_k_14, hh14, ll14,
          rollingMean_insufficient 14 _ h14, rollingMax_insufficient 14 _ h14,
          rollingMin_insufficient 14 _ h14]
    · have h20 : i + 1 < 20 := by omega
      refine ⟨?_, ?_, ?_, ?_, ?_, ?_, ?_, ?_, ?_, ?_, ?_, ?_, ?_, ?_⟩ <;>
        simp [sanitizedIndicators, computeIndicatorsRow, sanitize, sma_20,
          close_over_sma_20, vol_20d, bb_mid_20, bb_std_20, bb_upper_20_2,
          bb_lower_20_2, bb_width_20_2, bb_percent_b_20_2, v_sma_20, v_ratio_20,
          hh_20, ll_20, close_to_hh_20, close_to_ll_20,
          rollingMean_insufficient 20 _ h20, rollingStd_insufficient 20 _ h20,
          rollingMax_insufficient 20 _ h20, rollingMin_insufficient 20 _ h20]
    · simp [sanitizedIndicators, computeIndicatorsRow, sanitize, ret_20d,
        pctChange_insufficient 20 _ hi]
    · have h50 : i + 1 < 50 := by omega
      refine ⟨?_, ?_⟩ <;>
        simp [sanitizedIndicators, computeIndicatorsRow, sanitize, sma_50,
          close_over_sma_50, rollingMean_insufficient 50 _ h50]

set_option maxRecDepth 100000 in
set_option maxHeartbeats 4000000 in
/-- Witness for C6: on the concrete frame, row 0 constructs successfully with
every windowed field missing and sanitization passing only finite values. -/
theorem C6_witness :
    validateIndicators (computeIndicatorsRow rsiRows 0) = .ok c6ind ∧
    sanitize PyFloat.nan = none ∧
    c6ind.fieldList = (computeIndicatorsRow rsiRows 0).fieldList.map sanitize ∧
    c6ind.ret_1d = none ∧ c6ind.sma_20 = none := by
  have hval : validateIndicators (computeIndicatorsRow rsiRows 0) = .ok c6ind := by
    norm_num [validateIndicators, sanitizedIndicators, sanitize, nonNegOk,
      computeIndicatorsRow, ret_1d, ret_5d, ret_20d, logret_1d, vol_20d, atr_14,
      sma_5, sma_20, sma_50, ema_20, ema_50, close_over_sma_20, close_over_sma_50,
      rsi_14, rsS, avg_gain, avg_loss, gainS, lossS, deltaS, stoch_k_14, stoch_d_3,
      hh14, ll14, macd, macd_signal, macd_hist, macdQ, bb_mid_20, bb_std_20,
      bb_upper_20_2, bb_lower_20_2, bb_width_20_2, bb_percent_b_20_2, true_range,
      hl_range, body, upper_wick, lower_wick, gap, gap_pct, v_sma_20, v_ratio_20,
      obv, obvQ, direction, hh_20, ll_20, close_to_hh_20, close_to_ll_20,
      rollingMean, rollingMax, rollingMin, rollingStd, window, finVals?, List.mapM,
      List.mapM.loop, ewmaQ, closeQ, volumeQ, closeS, openS, highS, lowS, volumeS,
      prev_close, ratioS, pyLogWhere, logModel, pctChange, col, shiftN, rsiRows,
      pyClip0, pySub, pyNeg, pyAdd, pyDiv, pyMul, pyAbs, pyMaxSkip, pyMaxSkip3,
      pyMinSkip, pyLt, List.range_succ, c6ind]
  obtain ⟨hs, hf, hm⟩ := C6_indicator_sanitization
  refine ⟨hval, hs PyFloat.nan rfl, hf _ _ hval, ?_, ?_⟩
  · exact ((hm rsiRows 0 c6ind hval).1 (by omega)).1
  · exact ((hm rsiRows 0 c6ind hval).2.2.2.2.2.1 (by omega)).1


theorem isEmpty_false_ne_nil {α : Type} {l : List α} (h : l.isEmpty = false) : l ≠ [] := by
  intro hnil
  subst hnil
  simp [List.isEmpty] at h

theorem runCore_ok_inversion {Raw Clean Daily Dec Rep : Type} (ctx : EngineContext)
    (S : PipelineServices Raw Clean Daily Dec Rep)
    (res : EngineContext × DecisionPack Dec × List String)
    (h : runCore ctx S = .ok res) :
    ∃ symbols st cands dst,
      S.build_universe ctx = .ok symbols ∧ symbols ≠ [] ∧
      featureStage S (ctx_with_note ctx "universe_size" (.num symbols.length))
        ⟨[], [], []⟩ symbols = .ok st ∧
      st.per_symbol ≠ [] ∧
      candidateStage S
        (ctxAfterFeatures (ctx_with_note ctx "universe_size" (.num symbols.length)) st)
        st.per_symbol = .ok cands ∧
      cands ≠ [] ∧
      decisionStage S st.per_symbol
        ⟨ctx_with_note
            (ctxAfterFeatures (ctx_with_note ctx "universe_size" (.num symbols.length)) st)
            "candidate_size" (.num cands.length), [], st.skipped⟩ cands = .ok dst ∧
      res = (dst.ctx,
        { market := ctx.run.market, asof := ctx.run.asof, run_id := ctx.run.run_id,
          decisions := dst.decisions }, dst.skipped) := by
  unfold runCore at h
  cases hu : S.build_universe ctx with
  | error e => rw [hu] at h; simp [Bind.bind, Except.bind] at h
  | ok symbols =>
    rw [hu] at h
    simp only [Bind.bind, Except.bind] at h
    by_cases hse : symbols = []
    · simp [hse] at h
    rw [if_neg hse] at h
    cases hst : featureStage S (ctx_with_note ctx "universe_size" (.num symbols.length))
        ⟨[], [], []⟩ symbols with
    | error e => rw [hst] at h; simp at h
    | ok st =>
      rw [hst] at h
      simp only [] at h
      cases hpe : st.per_symbol.isEmpty with
      | true => rw [hpe] at h; simp at h
      | false =>
        rw [hpe] at h
        simp only [Bool.false_eq_true, if_false] at h
        cases hcand : candidateStage S
            (ctxAfterFeatures (ctx_with_note ctx "universe_size" (.num symbols.length)) st)
            st.per_symbol with
        | error e => rw [hcand] at h; simp at h
        | ok cands =>
          rw [hcand] at h
          simp only [] at h
          by_cases hce : cands = []
          · simp [hce] at h
          rw [if_neg hce] at h
          cases hdst : decisionStage S st.per_symbol
              ⟨ctx_with_note
                  (ctxAfterFeatures (ctx_with_note ctx "universe_size" (.num symbols.length)) st)
                  "candidate_size" (.num cands.length), [], st.skipped⟩ cands with
          | error e => rw [hdst] at h; simp at h
          | ok dst =>
            rw [hdst] at h
            simp only [] at h
            exact ⟨symbols, st, cands, dst, rfl, hse, hst, isEmpty_false_ne_nil hpe,
              hcand, hce, hdst, (Except.ok.inj h).symm⟩

theorem ctxStep_degraded_mono {c c' : EngineContext} (h : CtxStep c c')
    (hd : c.degraded = true) : c'.degraded = true := by
  rcases h with ⟨k, v, rfl⟩ | ⟨r, rfl⟩
  · exact hd
  · rfl

theorem ctxReach_degraded_mono {c c' : EngineContext}
    (h : Relation.ReflTransGen CtxStep c c') (hd : c.degraded = true) :
    c'.degraded = true := by
  induction h with
  | refl => exact hd
  | tail hab hbc ih =>
      exact ctxStep_degraded_mono hbc ih

theorem ctxReach_with_note (c : EngineContext) (k : String) (v : NoteVal) :
    Relation.ReflTransGen CtxStep c (ctx_with_note c k v) :=
  Relation.ReflTransGen.single (Or.inl ⟨k, v, rfl⟩)

theorem ctxReach_mark (c : EngineContext) (r : String) :
    Relation.ReflTransGen CtxStep c (ctx_mark_degraded c r) :=
  Relation.ReflTransGen.single (Or.inr ⟨r, rfl⟩)

theorem ctxReach_afterFeatures {Clean Daily : Type} (c : EngineContext)
    (st : FeatState Clean Daily) :
    Relation.ReflTransGen CtxStep c (ctxAfterFeatures c st) := by
  simp only [ctxAfterFeatures]
  by_cases hr : st.degraded_reasons ≠ []
  · rw [if_pos hr]
    exact ((ctxReach_mark c _).trans (ctxReach_with_note _ _ _)).trans
      (ctxReach_with_note _ _ _)
  · rw [if_neg hr]
    exact (ctxReach_with_note _ _ _).trans (ctxReach_with_note _ _ _)

theorem decisionStage_ctx_reach {Raw Clean Daily Dec Rep : Type}
    (S : PipelineServices Raw Clean Daily Dec Rep)
    (per_symbol : List (String × SymFeat Clean Daily)) :
    ∀ (cands : List String) (st dst : DecState Dec),
      decisionStage S per_symbol st cands = .ok dst →
      Relation.ReflTransGen CtxStep st.ctx dst.ctx := by
  intro cands
  induction cands with
  | nil =>
      intro st dst h
      simp [decisionStage, List.foldlM, pure, Except.pure] at h
      subst h
      exact Relation.ReflTransGen.refl
  | cons c cs ih =>
      intro st dst h
      rw [decisionStage, List.foldlM_cons] at h
      cases hstep : decisionStep S per_symbol st c with
      | error e => rw [hstep] at h; simp [Bind.bind, Except.bind] at h
      | ok st' =>
        rw [hstep] at h
        simp only [Bind.bind, Except.bind] at h
        have hrest : Relation.ReflTransGen CtxStep st'.ctx dst.ctx := ih st' dst h
        unfold decisionStep at hstep
        cases hlook : alookup c per_symbol with
        | none => rw [hlook] at hstep; simp at hstep
        | some feat =>
          rw [hlook] at hstep
          simp only [] at hstep
          cases hdec : S.decide_for_symbol st.ctx c feat with
          | ok d =>
              rw [hdec] at hstep
              replace hstep := Except.ok.inj hstep
              subst hstep
              exact hrest
          | error e =>
              rw [hdec] at hstep
              cases e with
              | skipSymbol m =>
                  replace hstep := Except.ok.inj hstep
                  subst hstep
                  exact hrest
              | degradedError m =>
                  replace hstep := Except.ok.inj hstep
                  subst hstep
                  exact Relation.ReflTransGen.trans (ctxReach_mark st.ctx _) hrest
              | fatalError m => simp [PyExc.isMDE] at hstep
              | contractViolation m => simp [PyExc.isMDE] at hstep
              | mdeOther m => simp [PyExc.isMDE] at hstep
              | unclassified m => simp [PyExc.isMDE] at hstep

/-- C9: the degraded flag is monotonic within a run.  The only two context
transformations `run` performs are `_ctx_with_note`, which never touches the
flag, and `_ctx_mark_degraded`, which sets it (never clears it); along any
chain of these updates a raised flag stays raised, every successful `runCore`
reaches its final context from the initial one through such a chain, and in
particular a run entered degraded finishes degraded. -/
theorem C9_degraded_monotonic (Raw Clean Daily Dec Rep : Type) :
    (∀ (c : EngineContext) (k : String) (v : NoteVal),
      (ctx_with_note c k v).degraded = c.degraded) ∧
    (∀ (c : EngineContext) (r : String), (ctx_mark_degraded c r).degraded = true) ∧
    (∀ c c' : EngineContext, Relation.ReflTransGen CtxStep c c' →
      c.degraded = true → c'.degraded = true) ∧
    (∀ (S : PipelineServices Raw Clean Daily Dec Rep)
        (ctx : EngineContext) (res : EngineContext × DecisionPack Dec × List String),
      runCore ctx S = .ok res →
      Relation.ReflTransGen CtxStep ctx res.1 ∧
      (ctx.degraded = true → res.1.degraded = true)) := by
  refine ⟨fun c k v => rfl, fun c r => rfl, fun c c' h => ctxReach_degraded_mono h, ?_⟩
  intro S ctx res h
  obtain ⟨symbols, st, cands, dst, hu, hse, hst, hpe, hcand, hce, hdst, hres⟩ :=
    runCore_ok_inversion ctx S res h
  have hreach : Relation.ReflTransGen CtxStep ctx dst.ctx := by
    have h1 := ctxReach_with_note ctx "universe_size" (.num symbols.length)
    have h2 := ctxReach_afterFeatures
      (ctx_with_note ctx "universe_size" (.num symbols.length)) st
    have h3 := ctxReach_with_note
      (ctxAfterFeatures (ctx_with_note ctx "universe_size" (.num symbols.length)) st)
      "candidate_size" (.num cands.length)
    have h4 := decisionStage_ctx_reach S st.per_symbol cands _ dst hdst
    exact ((h1.trans h2).trans h3).trans h4
  subst hres
  exact ⟨hreach, fun hd => ctxReach_degraded_mono hreach hd⟩

/-- Witness for C9: the all-ok run reaches its final context from `ctx0`
through diagnostic updates only. -/
theorem C9_witness :
    runCore ctx0 svcOkBase = .ok (c9final, c9pack, []) ∧
    Relation.ReflTransGen CtxStep ctx0 c9final := by
  have h : runCore ctx0 svcOkBase = .ok (c9final, c9pack, []) := by rfl
  exact ⟨h, ((C9_degraded_monotonic Unit Unit Unit Unit Unit).2.2.2
    svcOkBase ctx0 (c9final, c9pack, []) h).1⟩


theorem ne_nil_isEmpty_false {α : Type} {l : List α} (h : l ≠ []) : l.isEmpty = false := by
  cases l with
  | nil => exact absurd rfl h
  | cons a t => rfl

theorem decisionStage_missing_candidate {Raw Clean Daily Dec Rep : Type}
    (S : PipelineServices Raw Clean Daily Dec Rep)
    (per_symbol : List (String × SymFeat Clean Daily))
    (hsoft : ∀ (c : EngineContext) (sym : String) (f : SymFeat Clean Daily) (e : PyExc),
      S.decide_for_symbol c sym f = .error e →
      (∃ m, e = .skipSymbol m) ∨ ∃ m, e = .degradedError m) :
    ∀ (cands : List String) (st : DecState Dec),
      (∃ c ∈ cands, alookup c per_symbol = none) →
      decisionStage S per_symbol st cands =
        .error (.contractViolation "Candidate symbol not found in per_symbol feature map.") := by
  intro cands
  induction cands with
  | nil =>
      rintro st ⟨c, hc, _⟩
      exact absurd hc (List.not_mem_nil c)
  | cons c cs ih =>
      rintro st ⟨c0, hc0, hmiss⟩
      rw [decisionStage, List.foldlM_cons]
      rcases List.mem_cons.mp hc0 with rfl | htail
      · unfold decisionStep
        rw [hmiss]
        rfl
      · cases hlook : alookup c per_symbol with
        | none =>
            unfold decisionStep
            rw [hlook]
            rfl
        | some feat =>
            unfold decisionStep
            rw [hlook]
            simp only []
            cases hdec : S.decide_for_symbol st.ctx c feat with
            | ok d =>
                simp only [Bind.bind, Except.bind]
                exact ih _ ⟨c0, htail, hmiss⟩
            | error e =>
                rcases hsoft _ _ _ _ hdec with ⟨m, rfl⟩ | ⟨m, rfl⟩ <;>
                  simp only [Bind.bind, Except.bind] <;>
                  exact ih _ ⟨c0, htail, hmiss⟩

/-- C3: each of the four fail-fast conditions deterministically aborts `run`
with the specific fatal kind the spec names, and no report is produced (the
result is an error, so `build_report` is never consulted): empty universe ⇒
`FatalError("Universe is empty.")`; zero surviving symbols after the feature
stage ⇒ `FatalError`; empty candidate list ⇒ `FatalError`; a candidate absent
from the surviving feature map ⇒ `ContractViolation` (provided the decision
service itself only raises skip/degraded errors, so the run reaches the
missing candidate). -/
theorem C3_fail_fast (Raw Clean Daily Dec Rep : Type) :
    (∀ (ctx : EngineContext) (S : PipelineServices Raw Clean Daily Dec Rep),
      S.build_universe ctx = .ok [] →
      run ctx S = .error (.fatalError "Universe is empty.")) ∧
    (∀ (ctx : EngineContext) (S : PipelineServices Raw Clean Daily Dec Rep)
        (symbols : List String) (st : FeatState Clean Daily),
      S.build_universe ctx = .ok symbols → symbols ≠ [] →
      featureStage S (ctx_with_note ctx "universe_size" (.num symbols.length))
        ⟨[], [], []⟩ symbols = .ok st →
      st.per_symbol = [] →
      run ctx S = .error
        (.fatalError "No symbols available after preprocessing/feature generation.")) ∧
    (∀ (ctx : EngineContext) (S : PipelineServices Raw Clean Daily Dec Rep)
        (symbols : List String) (st : FeatState Clean Daily),
      S.build_universe ctx = .ok symbols → symbols ≠ [] →
      featureStage S (ctx_with_note ctx "universe_size" (.num symbols.length))
        ⟨[], [], []⟩ symbols = .ok st →
      st.per_symbol ≠ [] →
      candidateStage S
        (ctxAfterFeatures (ctx_with_note ctx "universe_size" (.num symbols.length)) st)
        st.per_symbol = .ok [] →
      run ctx S = .error (.fatalError "Candidate list is empty.")) ∧
    (∀ (ctx : EngineContext) (S : PipelineServices Raw Clean Daily Dec Rep)
        (symbols : List String) (st : FeatState Clean Daily) (cands : List String),
      S.build_universe ctx = .ok symbols → symbols ≠ [] →
      featureStage S (ctx_with_note ctx "universe_size" (.num symbols.length))
        ⟨[], [], []⟩ symbols = .ok st →
      st.per_symbol ≠ [] →
      candidateStage S
        (ctxAfterFeatures (ctx_with_note ctx "universe_size" (.num symbols.length)) st)
        st.per_symbol = .ok cands →
      cands ≠ [] →
      (∃ c ∈ cands, alookup c st.per_symbol = none) →
      (∀ (c : EngineContext) (sym : String) (f : SymFeat Clean Daily) (e : PyExc),
        S.decide_for_symbol c sym f = .error e →
        (∃ m, e = .skipSymbol m) ∨ ∃ m, e = .degradedError m) →
      run ctx S = .error
        (.contractViolation "Candidate symbol not found in per_symbol feature map.")) := by
  refine ⟨?_, ?_, ?_, ?_⟩
  · intro ctx S hu
    unfold run runCore
    rw [hu]
    simp [Bind.bind, Except.bind]
  · intro ctx S symbols st hu hse hst hpe
    unfold run runCore
    rw [hu]
    simp only [Bind.bind, Except.bind]
    rw [if_neg hse, hst]
    simp only [Bind.bind, Except.bind]
    rw [hpe]
    simp [List.isEmpty]
  · intro ctx S symbols st hu hse hst hpe hcand
    unfold run runCore
    rw [hu]
    simp only [Bind.bind, Except.bind]
    rw [if_neg hse, hst]
    simp only [Bind.bind, Except.bind]
    rw [ne_nil_isEmpty_false hpe]
    simp only [Bool.false_eq_true, if_false]
    rw [hcand]
    simp [Bind.bind, Except.bind]
  · intro ctx S symbols st cands hu hse hst hpe hcand hce hmiss hsoft
    unfold run runCore
    rw [hu]
    simp only [Bind.bind, Except.bind]
    rw [if_neg hse, hst]
    simp only [Bind.bind, Except.bind]
    rw [ne_nil_isEmpty_false hpe]
    simp only [Bool.false_eq_true, if_false]
    rw [hcand]
    simp only [Bind.bind, Except.bind]
    rw [if_neg hce]
    rw [decisionStage_missing_candidate S st.per_symbol hsoft cands _ hmiss]

/-- Witness for C3: the four fail-fast aborts at concrete services over the
one-symbol universe. -/
theorem C3_witness :
    run ctx0 svcEmptyUniverse = .error (.fatalError "Universe is empty.") ∧
    run ctx0 svcAllSkipped =
      .error (.fatalError "No symbols available after preprocessing/feature generation.") ∧
    run ctx0 svcEmptyCandidates = .error (.fatalError "Candidate list is empty.") ∧
    run ctx0 svcGhostCandidate =
      .error (.contractViolation "Candidate symbol not found in per_symbol feature map.") := by
  obtain ⟨h1, h2, h3, h4⟩ := C3_fail_fast Unit Unit Unit Unit Unit
  refine ⟨h1 ctx0 svcEmptyUniverse rfl, ?_, ?_, ?_⟩
  · exact h2 ctx0 svcAllSkipped ["A"] ⟨[], ["A"], []⟩ rfl (by simp) rfl rfl
  · exact h3 ctx0 svcEmptyCandidates ["A"] ⟨[("A", ⟨(), ()⟩)], [], []⟩ rfl (by simp)
      rfl (by simp) rfl
  · refine h4 ctx0 svcGhostCandidate ["A"] ⟨[("A", ⟨(), ()⟩)], [], []⟩ ["B"] rfl
      (by simp) rfl (by simp) rfl (by simp) ⟨"B", by simp, rfl⟩ ?_
    intro c sym f e hdec
    simp [svcGhostCandidate, svcOkBase] at hdec

/-- C8: what the code actually does with an unclassified exception.  In the
per-symbol feature stage (and likewise the decision stage) it is promoted to
`FatalError`, but an unclassified exception raised by `build_universe`
propagates out of `run` unmodified — it aborts the batch, yet it is not
promoted and escapes the orchestrator boundary unclassified, contradicting
the claim (and the `Raises` documentation of `run`). -/
theorem C8_unclassified_escape_behavior :
    run ctx0 svcUniverseUnclassified = .error (.unclassified "boom") ∧
    (PyExc.unclassified "boom").isMDE = false ∧
    run ctx0 svcFeatureUnclassified =
      .error (.fatalError "Unhandled exception in feature stage: boom") := by
  refine ⟨by rfl, rfl, by rfl⟩


theorem featureStage_frame {Raw Clean Daily Dec Rep : Type}
    (S : PipelineServices Raw Clean Daily Dec Rep) (ctx : EngineContext) :
    ∀ (ys : List String) (ps : List (String × SymFeat Clean Daily))
      (sk₁ dr₁ sk₂ dr₂ : List String),
      (∃ e, featureStage S ctx ⟨ps, sk₁, dr₁⟩ ys = .error e ∧
        featureStage S ctx ⟨ps, sk₂, dr₂⟩ ys = .error e) ∨
      (∃ (ps' : List (String × SymFeat Clean Daily)) (t u : List String),
        featureStage S ctx ⟨ps, sk₁, dr₁⟩ ys = .ok ⟨ps', sk₁ ++ t, dr₁ ++ u⟩ ∧
        featureStage S ctx ⟨ps, sk₂, dr₂⟩ ys = .ok ⟨ps', sk₂ ++ t, dr₂ ++ u⟩) := by
  intro ys
  induction ys with
  | nil =>
      intro ps sk₁ dr₁ sk₂ dr₂
      right
      exact ⟨ps, [], [], by simp [featureStage, List.foldlM, pure, Except.pure],
        by simp [featureStage, List.foldlM, pure, Except.pure]⟩
  | cons y ys ih =>
      intro ps sk₁ dr₁ sk₂ dr₂
      rw [featureStage, List.foldlM_cons, featureStage, List.foldlM_cons]
      cases hc : featureChain S ctx y with
      | ok v =>
          rw [show featureStep S ctx ⟨ps, sk₁, dr₁⟩ y =
              .ok ⟨ainsert y v ps, sk₁, dr₁⟩ by unfold featureStep; rw [hc]]
          rw [show featureStep S ctx ⟨ps, sk₂, dr₂⟩ y =
              .ok ⟨ainsert y v ps, sk₂, dr₂⟩ by unfold featureStep; rw [hc]]
          simp only [Bind.bind, Except.bind]
          exact ih (ainsert y v ps) sk₁ dr₁ sk₂ dr₂
      | error e =>
          cases e with
          | skipSymbol m =>
              rw [show featureStep S ctx ⟨ps, sk₁, dr₁⟩ y =
                  .ok ⟨ps, sk₁ ++ [y], dr₁⟩ by unfold featureStep; rw [hc]]
              rw [show featureStep S ctx ⟨ps, sk₂, dr₂⟩ y =
                  .ok ⟨ps, sk₂ ++ [y], dr₂⟩ by unfold featureStep; rw [hc]]
              simp only [Bind.bind, Except.bind]
              rcases ih ps (sk₁ ++ [y]) dr₁ (sk₂ ++ [y]) dr₂ with
                ⟨e, h1, h2⟩ | ⟨ps', t, u, h1, h2⟩
              · exact Or.inl ⟨e, by simpa [featureStage] using h1,
                  by simpa [featureStage] using h2⟩
              · refine Or.inr ⟨ps', y :: t, u, ?_, ?_⟩
                · rw [show featureStage S ctx ⟨ps, sk₁ ++ [y], dr₁⟩ ys =
                      List.foldlM (featureStep S ctx) ⟨ps, sk₁ ++ [y], dr₁⟩ ys from rfl] at h1
                  rw [h1]
                  simp
                · rw [show featureStage S ctx ⟨ps, sk₂ ++ [y], dr₂⟩ ys =
                      List.foldlM (featureStep S ctx) ⟨ps, sk₂ ++ [y], dr₂⟩ ys from rfl] at h2
                  rw [h2]
                  simp
          | degradedError m =>
              rw [show featureStep S ctx ⟨ps, sk₁, dr₁⟩ y =
                  .ok ⟨ps, sk₁ ++ [y], dr₁ ++ [m]⟩ by unfold featureStep; rw [hc]]
              rw [show featureStep S ctx ⟨ps, sk₂, dr₂⟩ y =
                  .ok ⟨ps, sk₂ ++ [y], dr₂ ++ [m]⟩ by unfold featureStep; rw [hc]]
              simp only [Bind.bind, Except.bind]
              rcases ih ps (sk₁ ++ [y]) (dr₁ ++ [m]) (sk₂ ++ [y]) (dr₂ ++ [m]) with
                ⟨e, h1, h2⟩ | ⟨ps', t, u, h1, h2⟩
              · exact Or.inl ⟨e, by simpa [featureStage] using h1,
                  by simpa [featureStage] using h2⟩
              · refine Or.inr ⟨ps', y :: t, m :: u, ?_, ?_⟩
                · rw [show featureStage S ctx ⟨ps, sk₁ ++ [y], dr₁ ++ [m]⟩ ys =
                      List.foldlM (featureStep S ctx) ⟨ps, sk₁ ++ [y], dr₁ ++ [m]⟩ ys
                      from rfl] at h1
                  rw [h1]
                  simp
                · rw [show featureStage S ctx ⟨ps, sk₂ ++ [y], dr₂ ++ [m]⟩ ys =
                      List.foldlM (featureStep S ctx) ⟨ps, sk₂ ++ [y], dr₂ ++ [m]⟩ ys
                      from rfl] at h2
                  rw [h2]
                  simp
          | fatalError m =>
              left
              refine ⟨.fatalError m, ?_, ?_⟩ <;>
                · rw [show featureStep S ctx ⟨ps, _, _⟩ y = .error (.fatalError m)
                      by unfold featureStep; rw [hc]; rfl]
                  rfl
          | contractViolation m =>
              left
              refine ⟨.contractViolation m, ?_, ?_⟩ <;>
                · rw [show featureStep S ctx ⟨ps, _, _⟩ y = .error (.contractViolation m)
                      by unfold featureStep; rw [hc]; rfl]
                  rfl
          | mdeOther m =>
              left
              refine ⟨.mdeOther m, ?_, ?_⟩ <;>
                · rw [show featureStep S ctx ⟨ps, _, _⟩ y = .error (.mdeOther m)
                      by unfold featureStep; rw [hc]; rfl]
                  rfl
          | unclassified m =>
              left
              refine ⟨.fatalError ("Unhandled exception in feature stage: " ++ m), ?_, ?_⟩ <;>
                · rw [show featureStep S ctx ⟨ps, _, _⟩ y =
                      .error (.fatalError ("Unhandled exception in feature stage: " ++ m))
                      by unfold featureStep; rw [hc]; rfl]
                  rfl


theorem diagEq_refl (c : EngineContext) : diagEq c c := ⟨rfl, rfl, rfl⟩

theorem diagEq_mark {c₁ c₂ : EngineContext} (h : diagEq c₁ c₂) (r : String) :
    diagEq (ctx_mark_degraded c₁ r) (ctx_mark_degraded c₂ r) := h

theorem decisionStage_frame {Raw Clean Daily Dec Rep : Type}
    (S : PipelineServices Raw Clean Daily Dec Rep)
    (per_symbol : List (String × SymFeat Clean Daily))
    (hdec : ∀ (c₁ c₂ : EngineContext) (sym : String) (f : SymFeat Clean Daily),
      diagEq c₁ c₂ → S.decide_for_symbol c₁ sym f = S.decide_for_symbol c₂ sym f) :
    ∀ (ys : List String) (c₁ c₂ : EngineContext) (ds₁ ds₂ : List Dec)
      (sk₁ sk₂ : List String), diagEq c₁ c₂ →
      (∃ e, decisionStage S per_symbol ⟨c₁, ds₁, sk₁⟩ ys = .error e ∧
        decisionStage S per_symbol ⟨c₂, ds₂, sk₂⟩ ys = .error e) ∨
      (∃ (e₁ e₂ : EngineContext) (u : List Dec) (t : List String),
        decisionStage S per_symbol ⟨c₁, ds₁, sk₁⟩ ys = .ok ⟨e₁, ds₁ ++ u, sk₁ ++ t⟩ ∧
        decisionStage S per_symbol ⟨c₂, ds₂, sk₂⟩ ys = .ok ⟨e₂, ds₂ ++ u, sk₂ ++ t⟩ ∧
        diagEq e₁ e₂ ∧
        (c₁.degraded = true → e₁.degraded = true) ∧
        (c₂.degraded = true → e₂.degraded = true) ∧
        (c₁ = c₂ → e₁ = e₂)) := by
  intro ys
  induction ys with
  | nil =>
      intro c₁ c₂ ds₁ ds₂ sk₁ sk₂ hd
      right
      exact ⟨c₁, c₂, [], [], by simp [decisionStage, List.foldlM, pure, Except.pure],
        by simp [decisionStage, List.foldlM, pure, Except.pure], hd,
        fun h => h, fun h => h, fun h => by rw [h]⟩
  | cons y ys ih =>
      intro c₁ c₂ ds₁ ds₂ sk₁ sk₂ hd
      rw [decisionStage, List.foldlM_cons, decisionStage, List.foldlM_cons]
      cases hlook : alookup y per_symbol with
      | none =>
          left
          refine ⟨.contractViolation "Candidate symbol not found in per_symbol feature map.",
            ?_, ?_⟩ <;>
            · rw [show decisionStep S per_symbol ⟨_, _, _⟩ y =
                  .error (.contractViolation "Candidate symbol not found in per_symbol feature map.")
                  by unfold decisionStep; rw [hlook]]
              rfl
      | some feat =>
          have hdy : S.decide_for_symbol c₁ y feat = S.decide_for_symbol c₂ y feat :=
            hdec c₁ c₂ y feat hd
          cases hr : S.decide_for_symbol c₁ y feat with
          | ok d =>
              rw [show decisionStep S per_symbol ⟨c₁, ds₁, sk₁⟩ y =
                  .ok ⟨c₁, ds₁ ++ [d], sk₁⟩
                  by unfold decisionStep; rw [hlook]; simp only []; rw [hr]]
              rw [show decisionStep S per_symbol ⟨c₂, ds₂, sk₂⟩ y =
                  .ok ⟨c₂, ds₂ ++ [d], sk₂⟩
                  by unfold decisionStep; rw [hlook]; simp only []; rw [← hdy, hr]]
              simp only [Bind.bind, Except.bind]
              rcases ih c₁ c₂ (ds₁ ++ [d]) (ds₂ ++ [d]) sk₁ sk₂ hd with
                ⟨e, h1, h2⟩ | ⟨e₁, e₂, u, t, h1, h2, hde, hm1, hm2, heq⟩
              · exact Or.inl ⟨e, by simpa [decisionStage] using h1,
                  by simpa [decisionStage] using h2⟩
              · refine Or.inr ⟨e₁, e₂, d :: u, t, ?_, ?_, hde, hm1, hm2, heq⟩
                · rw [show decisionStage S per_symbol ⟨c₁, ds₁ ++ [d], sk₁⟩ ys =
                      List.foldlM (decisionStep S per_symbol) ⟨c₁, ds₁ ++ [d], sk₁⟩ ys
                      from rfl] at h1
                  rw [h1]
                  simp
                · rw [show decisionStage S per_symbol ⟨c₂, ds₂ ++ [d], sk₂⟩ ys =
                      List.foldlM (decisionStep S per_symbol) ⟨c₂, ds₂ ++ [d], sk₂⟩ ys
                      from rfl] at h2
                  rw [h2]
                  simp
          | error e =>
              cases e with
              | skipSymbol m =>
                  rw [show decisionStep S per_symbol ⟨c₁, ds₁, sk₁⟩ y =
                      .ok ⟨c₁, ds₁, sk₁ ++ [y]⟩
                      by unfold decisionStep; rw [hlook]; simp only []; rw [hr]]
                  rw [show decisionStep S per_symbol ⟨c₂, ds₂, sk₂⟩ y =
                      .ok ⟨c₂, ds₂, sk₂ ++ [y]⟩
                      by unfold decisionStep; rw [hlook]; simp only []; rw [← hdy, hr]]
                  simp only [Bind.bind, Except.bind]
                  rcases ih c₁ c₂ ds₁ ds₂ (sk₁ ++ [y]) (sk₂ ++ [y]) hd with
                    ⟨e, h1, h2⟩ | ⟨e₁, e₂, u, t, h1, h2, hde, hm1, hm2, heq⟩
                  · exact Or.inl ⟨e, by simpa [decisionStage] using h1,
                      by simpa [decisionStage] using h2⟩
                  · refine Or.inr ⟨e₁, e₂, u, y :: t, ?_, ?_, hde, hm1, hm2, heq⟩
                    · rw [show decisionStage S per_symbol ⟨c₁, ds₁, sk₁ ++ [y]⟩ ys =
                          List.foldlM (decisionStep S per_symbol) ⟨c₁, ds₁, sk₁ ++ [y]⟩ ys
                          from rfl] at h1
                      rw [h1]
                      simp
                    · rw [show decisionStage S per_symbol ⟨c₂, ds₂, sk₂ ++ [y]⟩ ys =
                          List.foldlM (decisionStep S per_symbol) ⟨c₂, ds₂, sk₂ ++ [y]⟩ ys
                          from rfl] at h2
                      rw [h2]
                      simp
              | degradedError m =>
                  rw [show decisionStep S per_symbol ⟨c₁, ds₁, sk₁⟩ y =
                      .ok ⟨ctx_mark_degraded c₁ ("decision_stage_degraded: " ++ m),
                        ds₁, sk₁ ++ [y]⟩
                      by unfold decisionStep; rw [hlook]; simp only []; rw [hr]]
                  rw [show decisionStep S per_symbol ⟨c₂, ds₂, sk₂⟩ y =
                      .ok ⟨ctx_mark_degraded c₂ ("decision_stage_degraded: " ++ m),
                        ds₂, sk₂ ++ [y]⟩
                      by unfold decisionStep; rw [hlook]; simp only []; rw [← hdy, hr]]
                  simp only [Bind.bind, Except.bind]
                  rcases ih (ctx_mark_degraded c₁ ("decision_stage_degraded: " ++ m))
                      (ctx_mark_degraded c₂ ("decision_stage_degraded: " ++ m))
                      ds₁ ds₂ (sk₁ ++ [y]) (sk₂ ++ [y]) (diagEq_mark hd _) with
                    ⟨e, h1, h2⟩ | ⟨e₁, e₂, u, t, h1, h2, hde, hm1, hm2, heq⟩
                  · exact Or.inl ⟨e, by simpa [decisionStage] using h1,
                      by simpa [decisionStage] using h2⟩
                  · refine Or.inr ⟨e₁, e₂, u, y :: t, ?_, ?_, hde,
                      fun _ => hm1 rfl, fun _ => hm2 rfl, fun hcc => heq (by rw [hcc])⟩
                    · rw [show decisionStage S per_symbol
                          ⟨ctx_mark_degraded c₁ ("decision_stage_degraded: " ++ m),
                            ds₁, sk₁ ++ [y]⟩ ys =
                          List.foldlM (decisionStep S per_symbol)
                          ⟨ctx_mark_degraded c₁ ("decision_stage_degraded: " ++ m),
                            ds₁, sk₁ ++ [y]⟩ ys from rfl] at h1
                      rw [h1]
                      simp
                    · rw [show decisionStage S per_symbol
                          ⟨ctx_mark_degraded c₂ ("decision_stage_degraded: " ++ m),
                            ds₂, sk₂ ++ [y]⟩ ys =
                          List.foldlM (decisionStep S per_symbol)
                          ⟨ctx_mark_degraded c₂ ("decision_stage_degraded: " ++ m),
                            ds₂, sk₂ ++ [y]⟩ ys from rfl] at h2
                      rw [h2]
                      simp
              | fatalError m =>
                  left
                  refine ⟨.fatalError m, ?_, ?_⟩
                  · rw [show decisionStep S per_symbol ⟨c₁, ds₁, sk₁⟩ y =
                        .error (.fatalError m)
                        by unfold decisionStep; rw [hlook]; simp only []; rw [hr]; rfl]
                    rfl
                  · rw [show decisionStep S per_symbol ⟨c₂, ds₂, sk₂⟩ y =
                        .error (.fatalError m)
                        by unfold decisionStep; rw [hlook]; simp only []; rw [← hdy, hr]; rfl]
                    rfl
              | contractViolation m =>
                  left
                  refine ⟨.contractViolation m, ?_, ?_⟩
                  · rw [show decisionStep S per_symbol ⟨c₁, ds₁, sk₁⟩ y =
                        .error (.contractViolation m)
                        by unfold decisionStep; rw [hlook]; simp only []; rw [hr]; rfl]
                    rfl
                  · rw [show decisionStep S per_symbol ⟨c₂, ds₂, sk₂⟩ y =
                        .error (.contractViolation m)
                        by unfold decisionStep; rw [hlook]; simp only []; rw [← hdy, hr]; rfl]
                    rfl
              | mdeOther m =>
                  left
                  refine ⟨.mdeOther m, ?_, ?_⟩
                  · rw [show decisionStep S per_symbol ⟨c₁, ds₁, sk₁⟩ y =
                        .error (.mdeOther m)
                        by unfold decisionStep; rw [hlook]; simp only []; rw [hr]; rfl]
                    rfl
                  · rw [show decisionStep S per_symbol ⟨c₂, ds₂, sk₂⟩ y =
                        .error (.mdeOther m)
                        by unfold decisionStep; rw [hlook]; simp only []; rw [← hdy, hr]; rfl]
                    rfl
              | unclassified m =>
                  left
                  refine ⟨.fatalError ("Unhandled exception in decision stage: " ++ m), ?_, ?_⟩
                  · rw [show decisionStep S per_symbol ⟨c₁, ds₁, sk₁⟩ y =
                        .error (.fatalError ("Unhandled exception in decision stage: " ++ m))
                        by unfold decisionStep; rw [hlook]; simp only []; rw [hr]; rfl]
                    rfl
                  · rw [show decisionStep S per_symbol ⟨c₂, ds₂, sk₂⟩ y =
                        .error (.fatalError ("Unhandled exception in decision stage: " ++ m))
                        by unfold decisionStep; rw [hlook]; simp only []; rw [← hdy, hr]; rfl]
                    rfl


theorem featureStage_append {Raw Clean Daily Dec Rep : Type}
    (S : PipelineServices Raw Clean Daily Dec Rep) (ctx : EngineContext)
    (init : FeatState Clean Daily) (xs ys : List String) :
    featureStage S ctx init (xs ++ ys) =
      featureStage S ctx init xs >>= fun st => featureStage S ctx st ys := by
  simp [featureStage, List.foldlM_append]

theorem decisionStage_append {Raw Clean Daily Dec Rep : Type}
    (S : PipelineServices Raw Clean Daily Dec Rep)
    (per_symbol : List (String × SymFeat Clean Daily))
    (init : DecState Dec) (xs ys : List String) :
    decisionStage S per_symbol init (xs ++ ys) =
      decisionStage S per_symbol init xs >>= fun st =>
        decisionStage S per_symbol st ys := by
  simp [decisionStage, List.foldlM_append]

theorem featureStep_skip {Raw Clean Daily Dec Rep : Type}
    {S : PipelineServices Raw Clean Daily Dec Rep} {ctx : EngineContext}
    {s m : String} (hchain : featureChain S ctx s = .error (.skipSymbol m))
    (st : FeatState Clean Daily) :
    featureStep S ctx st s = .ok { st with skipped := st.skipped ++ [s] } := by
  unfold featureStep
  rw [hchain]

theorem featureStep_degraded {Raw Clean Daily Dec Rep : Type}
    {S : PipelineServices Raw Clean Daily Dec Rep} {ctx : EngineContext}
    {s m : String} (hchain : featureChain S ctx s = .error (.degradedError m))
    (st : FeatState Clean Daily) :
    featureStep S ctx st s =
      .ok { st with
              degraded_reasons := st.degraded_reasons ++ [m]
              skipped := st.skipped ++ [s] } := by
  unfold featureStep
  rw [hchain]

theorem decisionStep_skip {Raw Clean Daily Dec Rep : Type}
    {S : PipelineServices Raw Clean Daily Dec Rep}
    {per_symbol : List (String × SymFeat Clean Daily)}
    {s m : String} {feat : SymFeat Clean Daily}
    (hlook : alookup s per_symbol = some feat) (st : DecState Dec)
    (hchain : S.decide_for_symbol st.ctx s feat = .error (.skipSymbol m)) :
    decisionStep S per_symbol st s = .ok { st with skipped := st.skipped ++ [s] } := by
  unfold decisionStep
  rw [hlook]
  simp only []
  rw [hchain]

theorem decisionStep_degraded {Raw Clean Daily Dec Rep : Type}
    {S : PipelineServices Raw Clean Daily Dec Rep}
    {per_symbol : List (String × SymFeat Clean Daily)}
    {s m : String} {feat : SymFeat Clean Daily}
    (hlook : alookup s per_symbol = some feat) (st : DecState Dec)
    (hchain : S.decide_for_symbol st.ctx s feat = .error (.degradedError m)) :
    decisionStep S per_symbol st s =
      .ok { st with
              ctx := ctx_mark_degraded st.ctx ("decision_stage_degraded: " ++ m)
              skipped := st.skipped ++ [s] } := by
  unfold decisionStep
  rw [hlook]
  simp only []
  rw [hchain]

theorem decisionStage_frame_eq {Raw Clean Daily Dec Rep : Type}
    (S : PipelineServices Raw Clean Daily Dec Rep)
    (per_symbol : List (String × SymFeat Clean Daily)) :
    ∀ (ys : List String) (c : EngineContext) (ds₁ ds₂ : List Dec)
      (sk₁ sk₂ : List String),
      (∃ e, decisionStage S per_symbol ⟨c, ds₁, sk₁⟩ ys = .error e ∧
        decisionStage S per_symbol ⟨c, ds₂, sk₂⟩ ys = .error e) ∨
      (∃ (e : EngineContext) (u : List Dec) (t : List String),
        decisionStage S per_symbol ⟨c, ds₁, sk₁⟩ ys = .ok ⟨e, ds₁ ++ u, sk₁ ++ t⟩ ∧
        decisionStage S per_symbol ⟨c, ds₂, sk₂⟩ ys = .ok ⟨e, ds₂ ++ u, sk₂ ++ t⟩) := by
  intro ys
  induction ys with
  | nil =>
      intro c ds₁ ds₂ sk₁ sk₂
      right
      exact ⟨c, [], [], by simp [decisionStage, List.foldlM, pure, Except.pure],
        by simp [decisionStage, List.foldlM, pure, Except.pure]⟩
  | cons y ys ih =>
      intro c ds₁ ds₂ sk₁ sk₂
      rw [decisionStage, List.foldlM_cons, decisionStage, List.foldlM_cons]
      cases hlook : alookup y per_symbol with
      | none =>
          left
          refine ⟨.contractViolation "Candidate symbol not found in per_symbol feature map.",
            ?_, ?_⟩ <;>
            · rw [show decisionStep S per_symbol ⟨_, _, _⟩ y =
                  .error (.contractViolation "Candidate symbol not found in per_symbol feature map.")
                  by unfold decisionStep; rw [hlook]]
              rfl
      | some feat =>
          cases hr : S.decide_for_symbol c y feat with
          | ok d =>
              rw [show decisionStep S per_symbol ⟨c, ds₁, sk₁⟩ y = .ok ⟨c, ds₁ ++ [d], sk₁⟩
                  by unfold decisionStep; rw [hlook]; simp only []; rw [hr]]
              rw [show decisionStep S per_symbol ⟨c, ds₂, sk₂⟩ y = .ok ⟨c, ds₂ ++ [d], sk₂⟩
                  by unfold decisionStep; rw [hlook]; simp only []; rw [hr]]
              simp only [Bind.bind, Except.bind]
              rcases ih c (ds₁ ++ [d]) (ds₂ ++ [d]) sk₁ sk₂ with
                ⟨e, h1, h2⟩ | ⟨e, u, t, h1, h2⟩
              · exact Or.inl ⟨e, by simpa [decisionStage] using h1,
                  by simpa [decisionStage] using h2⟩
              · refine Or.inr ⟨e, d :: u, t, ?_, ?_⟩
                · rw [show decisionStage S per_symbol ⟨c, ds₁ ++ [d], sk₁⟩ ys =
                      List.foldlM (decisionStep S per_symbol) ⟨c, ds₁ ++ [d], sk₁⟩ ys
                      from rfl] at h1
                  rw [h1]
                  simp
                · rw [show decisionStage S per_symbol ⟨c, ds₂ ++ [d], sk₂⟩ ys =
                      List.foldlM (decisionStep S per_symbol) ⟨c, ds₂ ++ [d], sk₂⟩ ys
                      from rfl] at h2
                  rw [h2]
                  simp
          | error e =>
              cases e with
              | skipSymbol m =>
                  rw [decisionStep_skip hlook ⟨c, ds₁, sk₁⟩ hr,
                    decisionStep_skip hlook ⟨c, ds₂, sk₂⟩ hr]
                  simp only [Bind.bind, Except.bind]
                  rcases ih c ds₁ ds₂ (sk₁ ++ [y]) (sk₂ ++ [y]) with
                    ⟨e, h1, h2⟩ | ⟨e, u, t, h1, h2⟩
                  · exact Or.inl ⟨e, by simpa [decisionStage] using h1,
                      by simpa [decisionStage] using h2⟩
                  · refine Or.inr ⟨e, u, y :: t, ?_, ?_⟩
                    · rw [show decisionStage S per_symbol ⟨c, ds₁, sk₁ ++ [y]⟩ ys =
                          List.foldlM (decisionStep S per_symbol) ⟨c, ds₁, sk₁ ++ [y]⟩ ys
                          from rfl] at h1
                      rw [h1]
                      simp
                    · rw [show decisionStage S per_symbol ⟨c, ds₂, sk₂ ++ [y]⟩ ys =
                          List.foldlM (decisionStep S per_symbol) ⟨c, ds₂, sk₂ ++ [y]⟩ ys
                          from rfl] at h2
                      rw [h2]
                      simp
              | degradedError m =>
                  rw [decisionStep_degraded hlook ⟨c, ds₁, sk₁⟩ hr,
                    decisionStep_degraded hlook ⟨c, ds₂, sk₂⟩ hr]
                  simp only [Bind.bind, Except.bind]
                  rcases ih (ctx_mark_degraded c ("decision_stage_degraded: " ++ m))
                      ds₁ ds₂ (sk₁ ++ [y]) (sk₂ ++ [y]) with
                    ⟨e, h1, h2⟩ | ⟨e, u, t, h1, h2⟩
                  · exact Or.inl ⟨e, by simpa [decisionStage] using h1,
                      by simpa [decisionStage] using h2⟩
                  · refine Or.inr ⟨e, u, y :: t, ?_, ?_⟩
                    · rw [show decisionStage S per_symbol
                          ⟨ctx_mark_degraded c ("decision_stage_degraded: " ++ m),
                            ds₁, sk₁ ++ [y]⟩ ys =
                          List.foldlM (decisionStep S per_symbol)
                          ⟨ctx_mark_degraded c ("decision_stage_degraded: " ++ m),
                            ds₁, sk₁ ++ [y]⟩ ys from rfl] at h1
                      rw [h1]
                      simp
                    · rw [show decisionStage S per_symbol
                          ⟨ctx_mark_degraded c ("decision_stage_degraded: " ++ m),
                            ds₂, sk₂ ++ [y]⟩ ys =
                          List.foldlM (decisionStep S per_symbol)
                          ⟨ctx_mark_degraded c ("decision_stage_degraded: " ++ m),
                            ds₂, sk₂ ++ [y]⟩ ys from rfl] at h2
                      rw [h2]
                      simp
              | fatalError m =>
                  left
                  refine ⟨.fatalError m, ?_, ?_⟩ <;>
                    · rw [show decisionStep S per_symbol ⟨c, _, _⟩ y =
                          .error (.fatalError m)
                          by unfold decisionStep; rw [hlook]; simp only []; rw [hr]; rfl]
                      rfl
              | contractViolation m =>
                  left
                  refine ⟨.contractViolation m, ?_, ?_⟩ <;>
                    · rw [show decisionStep S per_symbol ⟨c, _, _⟩ y =
                          .error (.contractViolation m)
                          by unfold decisionStep; rw [hlook]; simp only []; rw [hr]; rfl]
                      rfl
              | mdeOther m =>
                  left
                  refine ⟨.mdeOther m, ?_, ?_⟩ <;>
                    · rw [show decisionStep S per_symbol ⟨c, _, _⟩ y =
                          .error (.mdeOther m)
                          by unfold decisionStep; rw [hlook]; simp only []; rw [hr]; rfl]
                      rfl
              | unclassified m =>
                  left
                  refine ⟨.fatalError ("Unhandled exception in decision stage: " ++ m), ?_, ?_⟩ <;>
                    · rw [show decisionStep S per_symbol ⟨c, _, _⟩ y =
                          .error (.fatalError ("Unhandled exception in decision stage: " ++ m))
                          by unfold decisionStep; rw [hlook]; simp only []; rw [hr]; rfl]
                      rfl


/-- C4: per-symbol failure isolation in stages 2 and 4.  `_ctx_mark_degraded`
raises the flag and records the reason in the `degraded_reasons` note; the
post-stage-2 flag depends only on the collected reasons.  In stage 2 a
`SkipSymbol` for one symbol adds exactly that symbol to the skipped list at
its position and changes neither the feature map, nor the reasons list (hence
not the degraded flag), nor any other symbol's outcome; a `DegradedError`
additionally inserts exactly its reason.  In stage 4 (where the decision
service depends only on the non-diagnostic part of the context, which for the
degraded case is a hypothesis) a `SkipSymbol` leaves every other candidate's
decision and the context untouched, and a `DegradedError` leaves every other
candidate's decision untouched, moves the symbol to skipped and leaves the
final context degraded. -/
theorem C4_skip_degraded_isolation (Raw Clean Daily Dec Rep : Type) :
    (∀ (c : EngineContext) (r : String),
      (ctx_mark_degraded c r).degraded = true ∧
      ∃ l, alookup "degraded_reasons" (ctx_mark_degraded c r).notes =
          some (.strList l) ∧ r ∈ l) ∧
    (∀ (c : EngineContext) (st : FeatState Clean Daily),
      (ctxAfterFeatures c st).degraded =
        if st.degraded_reasons = [] then c.degraded else true) ∧
    (∀ (S : PipelineServices Raw Clean Daily Dec Rep) (ctx : EngineContext)
        (xs ys : List String) (s m : String) (stx st : FeatState Clean Daily),
      featureChain S ctx s = .error (.skipSymbol m) →
      featureStage S ctx ⟨[], [], []⟩ xs = .ok stx →
      featureStage S ctx ⟨[], [], []⟩ (xs ++ ys) = .ok st →
      ∃ t, st.skipped = stx.skipped ++ t ∧
        featureStage S ctx ⟨[], [], []⟩ (xs ++ s :: ys) =
          .ok ⟨st.per_symbol, stx.skipped ++ s :: t, st.degraded_reasons⟩) ∧
    (∀ (S : PipelineServices Raw Clean Daily Dec Rep) (ctx : EngineContext)
        (xs ys : List String) (s m : String) (stx st : FeatState Clean Daily),
      featureChain S ctx s = .error (.degradedError m) →
      featureStage S ctx ⟨[], [], []⟩ xs = .ok stx →
      featureStage S ctx ⟨[], [], []⟩ (xs ++ ys) = .ok st →
      ∃ t u, st.skipped = stx.skipped ++ t ∧
        st.degraded_reasons = stx.degraded_reasons ++ u ∧
        featureStage S ctx ⟨[], [], []⟩ (xs ++ s :: ys) =
          .ok ⟨st.per_symbol, stx.skipped ++ s :: t, stx.degraded_reasons ++ m :: u⟩) ∧
    (∀ (S : PipelineServices Raw Clean Daily Dec Rep)
        (per_symbol : List (String × SymFeat Clean Daily)) (init : DecState Dec)
        (xs ys : List String) (s m : String) (feat : SymFeat Clean Daily)
        (dstx dst : DecState Dec),
      alookup s per_symbol = some feat →
      decisionStage S per_symbol init xs = .ok dstx →
      S.decide_for_symbol dstx.ctx s feat = .error (.skipSymbol m) →
      decisionStage S per_symbol init (xs ++ ys) = .ok dst →
      ∃ t, dst.skipped = dstx.skipped ++ t ∧
        decisionStage S per_symbol init (xs ++ s :: ys) =
          .ok ⟨dst.ctx, dst.decisions, dstx.skipped ++ s :: t⟩) ∧
    (∀ (S : PipelineServices Raw Clean Daily Dec Rep)
        (per_symbol : List (String × SymFeat Clean Daily)) (init : DecState Dec)
        (xs ys : List String) (s m : String) (feat : SymFeat Clean Daily)
        (dstx dst : DecState Dec),
      (∀ (c₁ c₂ : EngineContext) (sym : String) (f : SymFeat Clean Daily),
        diagEq c₁ c₂ → S.decide_for_symbol c₁ sym f = S.decide_for_symbol c₂ sym f) →
      alookup s per_symbol = some feat →
      decisionStage S per_symbol init xs = .ok dstx →
      S.decide_for_symbol dstx.ctx s feat = .error (.degradedError m) →
      decisionStage S per_symbol init (xs ++ ys) = .ok dst →
      ∃ cfin t, dst.skipped = dstx.skipped ++ t ∧
        decisionStage S per_symbol init (xs ++ s :: ys) =
          .ok ⟨cfin, dst.decisions, dstx.skipped ++ s :: t⟩ ∧
        diagEq cfin dst.ctx ∧ cfin.degraded = true) := by
  refine ⟨?_, ?_, ?_, ?_, ?_, ?_⟩
  · intro c r
    refine ⟨rfl, ?_⟩
    simp only [ctx_mark_degraded]
    exact ⟨_, alookup_ainsert_self _ _ _, by simp⟩
  · intro c st
    simp only [ctxAfterFeatures, ctx_with_note]
    by_cases hr : st.degraded_reasons = []
    · rw [if_neg (by simp [hr]), if_pos hr]
    · rw [if_pos hr, if_neg hr]
      rfl
  · intro S ctx xs ys s m stx st hchain hstx hst
    obtain ⟨psx, skx, drx⟩ := stx
    have hys : featureStage S ctx ⟨psx, skx, drx⟩ ys = .ok st := by
      rw [featureStage_append, hstx] at hst
      simpa [Bind.bind, Except.bind] using hst
    rcases featureStage_frame S ctx ys psx (skx ++ [s]) drx skx drx with
      ⟨e, h1, h2⟩ | ⟨ps', t, u, h1, h2⟩
    · rw [hys] at h2
      simp at h2
    · rw [hys] at h2
      replace h2 := Except.ok.inj h2
      subst h2
      refine ⟨t, rfl, ?_⟩
      rw [featureStage_append, hstx]
      simp only [Bind.bind, Except.bind]
      rw [featureStage, List.foldlM_cons]
      rw [show featureStep S ctx ⟨psx, skx, drx⟩ s = .ok ⟨psx, skx ++ [s], drx⟩
          by unfold featureStep; rw [hchain]]
      simp only [Bind.bind, Except.bind]
      rw [show featureStage S ctx ⟨psx, skx ++ [s], drx⟩ ys =
          List.foldlM (featureStep S ctx) ⟨psx, skx ++ [s], drx⟩ ys from rfl] at h1
      rw [h1]
      simp
  · intro S ctx xs ys s m stx st hchain hstx hst
    obtain ⟨psx, skx, drx⟩ := stx
    have hys : featureStage S ctx ⟨psx, skx, drx⟩ ys = .ok st := by
      rw [featureStage_append, hstx] at hst
      simpa [Bind.bind, Except.bind] using hst
    rcases featureStage_frame S ctx ys psx (skx ++ [s]) (drx ++ [m]) skx drx with
      ⟨e, h1, h2⟩ | ⟨ps', t, u, h1, h2⟩
    · rw [hys] at h2
      simp at h2
    · rw [hys] at h2
      replace h2 := Except.ok.inj h2
      subst h2
      refine ⟨t, u, rfl, rfl, ?_⟩
      rw [featureStage_append, hstx]
      simp only [Bind.bind, Except.bind]
      rw [featureStage, List.foldlM_cons]
      rw [show featureStep S ctx ⟨psx, skx, drx⟩ s = .ok ⟨psx, skx ++ [s], drx ++ [m]⟩
          by unfold featureStep; rw [hchain]]
      simp only [Bind.bind, Except.bind]
      rw [show featureStage S ctx ⟨psx, skx ++ [s], drx ++ [m]⟩ ys =
          List.foldlM (featureStep S ctx) ⟨psx, skx ++ [s], drx ++ [m]⟩ ys from rfl] at h1
      rw [h1]
      simp
  · intro S per_symbol init xs ys s m feat dstx dst hlook hxs hchain hys0
    obtain ⟨cx, dx, skx⟩ := dstx
    have hchain2 : S.decide_for_symbol cx s feat = .error (.skipSymbol m) := hchain
    have hys : decisionStage S per_symbol ⟨cx, dx, skx⟩ ys = .ok dst := by
      rw [decisionStage_append, hxs] at hys0
      simpa [Bind.bind, Except.bind] using hys0
    rcases decisionStage_frame_eq S per_symbol ys cx dx dx (skx ++ [s]) skx with
      ⟨e, h1, h2⟩ | ⟨e, u, t, h1, h2⟩
    · rw [hys] at h2
      simp at h2
    · rw [hys] at h2
      replace h2 := Except.ok.inj h2
      subst h2
      refine ⟨t, rfl, ?_⟩
      rw [decisionStage_append, hxs]
      simp only [Bind.bind, Except.bind]
      rw [decisionStage, List.foldlM_cons]
      rw [show decisionStep S per_symbol ⟨cx, dx, skx⟩ s = .ok ⟨cx, dx, skx ++ [s]⟩
          by unfold decisionStep; rw [hlook]; simp only []; rw [hchain2]]
      simp only [Bind.bind, Except.bind]
      rw [show decisionStage S per_symbol ⟨cx, dx, skx ++ [s]⟩ ys =
          List.foldlM (decisionStep S per_symbol) ⟨cx, dx, skx ++ [s]⟩ ys from rfl] at h1
      rw [h1]
      simp
  · intro S per_symbol init xs ys s m feat dstx dst hdec hlook hxs hchain hys0
    obtain ⟨cx, dx, skx⟩ := dstx
    have hchain2 : S.decide_for_symbol cx s feat = .error (.degradedError m) := hchain
    have hys : decisionStage S per_symbol ⟨cx, dx, skx⟩ ys = .ok dst := by
      rw [decisionStage_append, hxs] at hys0
      simpa [Bind.bind, Except.bind] using hys0
    have hdg : diagEq (ctx_mark_degraded cx ("decision_stage_degraded: " ++ m)) cx :=
      ⟨rfl, rfl, rfl⟩
    rcases decisionStage_frame S per_symbol hdec ys
        (ctx_mark_degraded cx ("decision_stage_degraded: " ++ m)) cx
        dx dx (skx ++ [s]) skx hdg with
      ⟨e, h1, h2⟩ | ⟨e₁, e₂, u, t, h1, h2, hde, hm1, hm2, heq⟩
    · rw [hys] at h2
      simp at h2
    · rw [hys] at h2
      replace h2 := Except.ok.inj h2
      subst h2
      refine ⟨e₁, t, rfl, ?_, hde, hm1 rfl⟩
      rw [decisionStage_append, hxs]
      simp only [Bind.bind, Except.bind]
      rw [decisionStage, List.foldlM_cons]
      rw [show decisionStep S per_symbol ⟨cx, dx, skx⟩ s =
          .ok ⟨ctx_mark_degraded cx ("decision_stage_degraded: " ++ m), dx, skx ++ [s]⟩
          by unfold decisionStep; rw [hlook]; simp only []; rw [hchain2]]
      simp only [Bind.bind, Except.bind]
      rw [show decisionStage S per_symbol
          ⟨ctx_mark_degraded cx ("decision_stage_degraded: " ++ m), dx, skx ++ [s]⟩ ys =
          List.foldlM (decisionStep S per_symbol)
          ⟨ctx_mark_degraded cx ("decision_stage_degraded: " ++ m), dx, skx ++ [s]⟩ ys
          from rfl] at h1
      rw [h1]
      simp


/-- Witness for C4: the four isolation conclusions instantiated on the
three-symbol universe `["A", "B", "C"]` where exactly "B" fails. -/
theorem C4_witness :
    (∃ t, c4stAC.skipped = c4stA.skipped ++ t ∧
      featureStage svcSkipB ctx0 ⟨[], [], []⟩ (["A"] ++ "B" :: ["C"]) =
        .ok ⟨c4stAC.per_symbol, c4stA.skipped ++ "B" :: t, c4stAC.degraded_reasons⟩) ∧
    (∃ t u, c4stAC.skipped = c4stA.skipped ++ t ∧
      c4stAC.degraded_reasons = c4stA.degraded_reasons ++ u ∧
      featureStage svcDegradeB ctx0 ⟨[], [], []⟩ (["A"] ++ "B" :: ["C"]) =
        .ok ⟨c4stAC.per_symbol, c4stA.skipped ++ "B" :: t,
          c4stA.degraded_reasons ++ "bad data quality" :: u⟩) ∧
    (∃ t, c4dstAC.skipped = c4dstA.skipped ++ t ∧
      decisionStage svcDecideSkipB psABC ⟨ctx0, [], []⟩ (["A"] ++ "B" :: ["C"]) =
        .ok ⟨c4dstAC.ctx, c4dstAC.decisions, c4dstA.skipped ++ "B" :: t⟩) ∧
    (∃ cfin t, c4dstAC.skipped = c4dstA.skipped ++ t ∧
      decisionStage svcDecideDegradeB psABC ⟨ctx0, [], []⟩ (["A"] ++ "B" :: ["C"]) =
        .ok ⟨cfin, c4dstAC.decisions, c4dstA.skipped ++ "B" :: t⟩ ∧
      diagEq cfin c4dstAC.ctx ∧ cfin.degraded = true) := by
  obtain ⟨hmark, hflag, hA, hB, hC, hD⟩ :=
    C4_skip_degraded_isolation Unit Unit Unit Unit Unit
  refine ⟨?_, ?_, ?_, ?_⟩
  · exact hA svcSkipB ctx0 ["A"] ["C"] "B" "no data" c4stA c4stAC rfl rfl rfl
  · exact hB svcDegradeB ctx0 ["A"] ["C"] "B" "bad data quality" c4stA c4stAC rfl rfl rfl
  · exact hC svcDecideSkipB psABC ⟨ctx0, [], []⟩ ["A"] ["C"] "B" "no structure"
      ⟨(), ()⟩ c4dstA c4dstAC rfl rfl rfl rfl
  · exact hD svcDecideDegradeB psABC ⟨ctx0, [], []⟩ ["A"] ["C"] "B" "llm down"
      ⟨(), ()⟩ c4dstA c4dstAC (fun c₁ c₂ sym f hd => rfl) rfl rfl rfl rfl

end MDE
